import Mathlib

/-!
# Verification of the NVDAAL-Driver host-side GSP bring-up engine

Shallow embedding of the NVDAAL driver sources (`Sources/NVDAALGsp.cpp`,
`Sources/NVDAALVASpace.cpp`, `NVDAALChannel.cpp`) in Lean 4, together with
theorems settling the specification claims about the VBIOS parser, the
FWSEC-FRTS orchestration, the radix3 page-table builder, the RPC ring
queues, the CRC-32 checksum, the Resource-Manager client, the virtual
address space and the GPFIFO channel.

Machine integers are modelled as `Nat` with explicit reduction `% 2 ^ w`
at the points where the C code relies on fixed-width behaviour.
-/

set_option maxRecDepth 10000

namespace NVDAAL

/-! ## Generic bit-twiddling helpers

The C sources align sizes and addresses with the idiom
`(x + (a - 1)) & ~(a - 1)` on 64-bit unsigned integers.  On `Nat` the
64-bit complement `~(a - 1)` is `2 ^ 64 - a` (for `1 ≤ a ≤ 2 ^ 64`), so the
source expression is embedded as `(x + (a - 1)) &&& (2 ^ 64 - a)`.  The
lemmas below identify that mask expression with truncating/rounding
division for power-of-two alignments. -/

/-- `x &&& (2 ^ 64 - 2 ^ k)` keeps exactly the bits `k ≤ i < 64` of `x`:
for `x < 2 ^ 64` it equals `2 ^ k * (x / 2 ^ k)`. -/
theorem land_high_mask (k x : Nat) (hk : k ≤ 64) (hx : x < 2 ^ 64) :
    x &&& (2 ^ 64 - 2 ^ k) = 2 ^ k * (x / 2 ^ k) := by
  have hmask : (2 : Nat) ^ 64 - 2 ^ k = (2 ^ (64 - k) - 1) <<< k := by
    rw [Nat.shiftLeft_eq, Nat.sub_mul, Nat.one_mul, ← Nat.pow_add]
    rw [Nat.sub_add_cancel hk]
  have hdiv : 2 ^ k * (x / 2 ^ k) = (x >>> k) <<< k := by
    rw [Nat.shiftRight_eq_div_pow, Nat.shiftLeft_eq, Nat.mul_comm]
  rw [hmask, hdiv]
  apply Nat.eq_of_testBit_eq
  intro i
  rw [Nat.testBit_land, Nat.testBit_shiftLeft, Nat.testBit_shiftLeft]
  by_cases hik : k ≤ i
  · simp only [hik, decide_True, Bool.true_and]
    rw [Nat.testBit_two_pow_sub_one, Nat.testBit_shiftRight]
    have hsub : k + (i - k) = i := Nat.add_sub_cancel' hik
    rw [hsub]
    by_cases hi64 : i < 64
    · have : i - k < 64 - k := by omega
      simp [this]
    · have hxb : x.testBit i = false := by
        apply Nat.testBit_eq_false_of_lt
        exact Nat.lt_of_lt_of_le hx (Nat.pow_le_pow_right (by norm_num) (by omega))
      have : ¬ (i - k < 64 - k) := by omega
      simp [hxb, this]
  · simp [hik]

/-- Align-up as written in the source,
`(x + (a-1)) & ~(a-1)` with a 64-bit mask, for `a = 2 ^ k`,
equals the rounded-up multiple of `2 ^ k`. -/
theorem alignUp_eq (k x : Nat) (hk : k ≤ 64) (hx : x + 2 ^ k ≤ 2 ^ 64) :
    (x + (2 ^ k - 1)) &&& (2 ^ 64 - 2 ^ k) = 2 ^ k * ((x + 2 ^ k - 1) / 2 ^ k) := by
  have h1 : x + (2 ^ k - 1) = x + 2 ^ k - 1 := by
    have : (1 : Nat) ≤ 2 ^ k := Nat.one_le_two_pow
    omega
  rw [h1]
  exact land_high_mask k _ hk (by omega)

/-! ## CRC-32 (`NVDAALGsp::calcChecksum`, NVDAALGsp.cpp lines 1713-1726)

The source computes, over 32-bit unsigned arithmetic:
```
uint32_t crc = 0xFFFFFFFF;
for each byte: crc ^= byte; 8 × { crc = (crc >> 1) ^ (0xEDB88320 & -(crc & 1)); }
return ~crc;
```
`-(crc & 1)` on `uint32_t` is `(2^32 - (crc & 1)) % 2^32` and `~crc` is
`crc ^ 0xFFFFFFFF`. -/

/-- One inner-loop step of `calcChecksum` as written in the source. -/
def calcChecksumStep (crc : Nat) : Nat :=
  (crc >>> 1) ^^^ (0xEDB88320 &&& ((2 ^ 32 - (crc &&& 1)) % 2 ^ 32))

/-- Per-byte update of `calcChecksum`: xor the byte in, then run the
inner loop eight times. -/
def calcChecksumByte (crc b : Nat) : Nat :=
  calcChecksumStep^[8] (crc ^^^ b)

/-- `NVDAALGsp::calcChecksum` over a list of payload bytes. -/
def calcChecksum (data : List Nat) : Nat :=
  (data.foldl calcChecksumByte 0xFFFFFFFF) ^^^ 0xFFFFFFFF

/-- Modelled from the spec: the spec describes the checksum as "CRC-32 with
polynomial `0xEDB88320`, `0xFFFFFFFF` init/final XOR" (the standard
reflected CRC-32).  One bit step of that reference algorithm: if the LSB is
set, shift right and xor the polynomial, else just shift right. -/
def crc32SpecBit (crc : Nat) : Nat :=
  if crc &&& 1 = 1 then (crc >>> 1) ^^^ 0xEDB88320 else crc >>> 1

/-- Reference CRC-32 per-byte update. -/
def crc32SpecByte (crc b : Nat) : Nat :=
  crc32SpecBit^[8] (crc ^^^ b)

/-- Reference standard CRC-32 (reflected polynomial `0xEDB88320`, initial
value `0xFFFFFFFF`, final complement) over a list of bytes. -/
def crc32Spec (data : List Nat) : Nat :=
  (data.foldl crc32SpecByte 0xFFFFFFFF) ^^^ 0xFFFFFFFF

theorem calcChecksumStep_eq_spec (crc : Nat) :
    calcChecksumStep crc = crc32SpecBit crc := by
  unfold calcChecksumStep crc32SpecBit
  rcases Nat.and_one_is_mod crc ▸ Nat.mod_two_eq_zero_or_one crc with h | h
  · rw [h]
    norm_num
  · rw [h]
    norm_num
    decide

theorem calcChecksumByte_eq_spec (crc b : Nat) :
    calcChecksumByte crc b = crc32SpecByte crc b := by
  unfold calcChecksumByte crc32SpecByte
  have h : calcChecksumStep = crc32SpecBit := funext calcChecksumStep_eq_spec
  rw [h]

/-- The source checksum coincides with the reference CRC-32 on every input. -/
theorem calcChecksum_eq_crc32Spec (data : List Nat) :
    calcChecksum data = crc32Spec data := by
  unfold calcChecksum crc32Spec
  have h : calcChecksumByte = crc32SpecByte :=
    funext fun c => funext fun b => calcChecksumByte_eq_spec c b
  rw [h]

/-! ## RPC command queue (`NVDAALGsp::enqueueCommand`, lines 1728-1763)

The header `NVDAALGsp.h` is not part of the sources at hand; the constants
and layouts it declares are modelled from the spec:
* `QUEUE_SIZE`: the spec fixes the ring capacity at 256 KiB;
* `GspQueueElement`: the spec fixes the 16-byte frame header
  `{seqNum, elemCount, checkSum, reserved}` followed by the payload. -/

/-- Modelled from the spec: `QUEUE_SIZE` is declared in the missing
`NVDAALGsp.h`; the spec states the ring capacity is 256 KiB. -/
def QUEUE_SIZE : Nat := 0x40000

/-- A frame as written into the command ring by `enqueueCommand`:
the 16-byte header fields plus the payload bytes copied after them,
recorded together with the ring offset it was written at. -/
structure GspFrame where
  offset : Nat
  seqNum : Nat
  elemCount : Nat
  checkSum : Nat
  reserved : Nat
  payload : List Nat
  deriving Repr, DecidableEq

/-- The queue-relevant mutable state of `NVDAALGsp`: local head and tail
indices, the RPC sequence counter, the frames written so far, and the last
value stored to the hardware tail register. -/
structure GspQueueState where
  cmdQueueHead : Nat
  cmdQueueTail : Nat
  rpcSeqNum : Nat
  frames : List GspFrame
  hwTail : Nat
  gspReady : Bool
  deriving Repr, DecidableEq

/-- `NVDAALGsp::enqueueCommand(msg, size)`.  Faithful to the source:
`elemSize = sizeof(GspQueueElement) + size`, 256-byte align-up via the
64-bit mask idiom, the `(tail >= head)` free-space split, the early
`false` return on insufficient space, the frame header and checksum
stores, and the tail advance modulo `QUEUE_SIZE` mirrored to hardware. -/
def enqueueCommand (s : GspQueueState) (msg : List Nat) : Bool × GspQueueState :=
  let elemSize := 16 + msg.length
  let alignedSize := (elemSize + 0xFF) &&& (2 ^ 64 - 0x100)
  let head := s.cmdQueueHead
  let tail := s.cmdQueueTail
  let freeSpace := if tail ≥ head then QUEUE_SIZE - tail + head else head - tail
  if freeSpace < alignedSize then
    (false, s)
  else
    let frame : GspFrame :=
      { offset := tail
        seqNum := s.rpcSeqNum
        elemCount := (alignedSize + 0xFFF) / 0x1000
        checkSum := calcChecksum msg
        reserved := 0
        payload := msg }
    let newTail := (tail + alignedSize) % QUEUE_SIZE
    (true,
      { s with
        cmdQueueTail := newTail
        rpcSeqNum := s.rpcSeqNum + 1
        frames := s.frames ++ [frame]
        hwTail := newTail })

/-- Little-endian serialisation of a 32-bit word into four bytes. -/
def u32le (n : Nat) : List Nat :=
  [n % 256, n / 2 ^ 8 % 256, n / 2 ^ 16 % 256, n / 2 ^ 24 % 256]

/-- Modelled from the spec: RPC function ids are declared in the missing
`NVDAALGsp.h`.  Only their distinctness matters to the claims; the values
are placeholders. -/
def NV_VGPU_MSG_FUNCTION_GSP_SET_SYSTEM_INFO : Nat := 0x49
def NV_VGPU_MSG_FUNCTION_GSP_RM_ALLOC : Nat := 0x67
def NV_VGPU_MSG_FUNCTION_GSP_RM_CONTROL : Nat := 0x68
def NV_VGPU_MSG_FUNCTION_GSP_RM_FREE : Nat := 0x69

/-- The RPC message header signature `0x43505256` (spec: `RpcMessage`). -/
def NV_VGPU_MSG_SIGNATURE_VALID : Nat := 0x43505256

/-- Modelled from the spec: the 24-byte `NvRpcMessageHeader`
`{signature, headerVersion, rpcResult, rpcResultPriv, function, length}`
(all u32, little-endian), declared in the missing `NVDAALGsp.h`. -/
def rpcHeaderBytes (function length : Nat) : List Nat :=
  u32le NV_VGPU_MSG_SIGNATURE_VALID ++ u32le (3 <<< 24) ++ u32le 0 ++ u32le 0 ++
    u32le function ++ u32le length

/-- `NVDAALGsp::sendRpc(function, params, paramsSize)` (lines 1766-1799):
refuse when the GSP is not ready (except `GSP_SET_SYSTEM_INFO`), build the
message header followed by the parameter bytes into a fresh buffer, and
enqueue it.  The parameter buffer is passed by value, matching the source
where `sendRpc` copies the caller's bytes into a heap buffer it frees. -/
def sendRpc (s : GspQueueState) (function : Nat) (params : List Nat) :
    Bool × GspQueueState :=
  if !s.gspReady && function ≠ NV_VGPU_MSG_FUNCTION_GSP_SET_SYSTEM_INFO then
    (false, s)
  else
    let msgSize := 24 + params.length
    let msg := rpcHeaderBytes function msgSize ++ params
    enqueueCommand s msg

/-- Modelled from the spec: the `NvGspAllocParams` header
`{hClient, hParent, hObject, hClass, status}` (all u32, status last),
declared in the missing `NVDAALGsp.h`; `rmAlloc` writes `status = 0`. -/
def allocParamsBytes (hClient hParent hObject hClass status : Nat) : List Nat :=
  u32le hClient ++ u32le hParent ++ u32le hObject ++ u32le hClass ++ u32le status

/-- Little-endian 32-bit read out of a byte list (0 beyond the end). -/
def readBuf32 (buf : List Nat) (off : Nat) : Nat :=
  buf.getD off 0 + 2 ^ 8 * buf.getD (off + 1) 0 + 2 ^ 16 * buf.getD (off + 2) 0 +
    2 ^ 24 * buf.getD (off + 3) 0

/-- `NVDAALGsp::rmAlloc` (lines 1875-1911): build the alloc-params header
with `status = 0`, append the caller's parameter bytes, send the
`GSP_RM_ALLOC` RPC, then re-inspect the header's `status` field in the
caller-local buffer and fail on a non-zero value.  The buffer is the
value `buffer` below; `sendRpc` receives it by value, as in the source
where the callee copies it and never writes back. -/
def rmAlloc (s : GspQueueState) (hClient hParent hObject hClass : Nat)
    (params : List Nat) : Bool × GspQueueState :=
  let buffer := allocParamsBytes hClient hParent hObject hClass 0 ++ params
  let step := sendRpc s NV_VGPU_MSG_FUNCTION_GSP_RM_ALLOC buffer
  let result := step.1
  if result && readBuf32 buffer 16 ≠ 0 then (false, step.2) else (result, step.2)

/-- Modelled from the spec: the `NvGspControlParams` header
`{hClient, hObject, cmd, flags, status, paramsSize}` (all u32, status
fifth), declared in the missing `NVDAALGsp.h`. -/
def controlParamsBytes (hClient hObject cmd flags status paramsSize : Nat) :
    List Nat :=
  u32le hClient ++ u32le hObject ++ u32le cmd ++ u32le flags ++ u32le status ++
    u32le paramsSize

/-- `NVDAALGsp::rmControl` (lines 1913-1948): analogous to `rmAlloc` with
the control-params header and function `GSP_RM_CONTROL`. -/
def rmControl (s : GspQueueState) (hClient hObject cmd : Nat)
    (params : List Nat) : Bool × GspQueueState :=
  let buffer := controlParamsBytes hClient hObject cmd 0 0 params.length ++ params
  let step := sendRpc s NV_VGPU_MSG_FUNCTION_GSP_RM_CONTROL buffer
  let result := step.1
  if result && readBuf32 buffer 16 ≠ 0 then (false, step.2) else (result, step.2)

/-! ## Virtual address space (`NVDAALVASpace.cpp`) -/

/-- The VA-allocation state of `NVDAALVASpace`. -/
structure VASpaceState where
  vaStart : Nat
  vaLimit : Nat
  currentVaOffset : Nat
  deriving Repr, DecidableEq

/-- `NVDAALVASpace::init` (NVDAALVASpace.cpp lines 28-38): the default
virtual range and the free pointer at its start. -/
def VASpace.init : VASpaceState :=
  { vaStart := 0x1000000000
    vaLimit := 0xFFFFFFFFFF
    currentVaOffset := 0x1000000000 }

/-- `NVDAALVASpace::map(mem, alignment)` (lines 106-134).  `mem` is the
descriptor's byte length (`none` embeds the `!mem` null check).  The
align-up uses the source's 64-bit `(cur + (alignment-1)) & ~(alignment-1)`
idiom; on overflow of the range limit the function returns 0 and leaves
the state unchanged, otherwise it returns the aligned VA and bumps the
free pointer past the mapping. -/
def VASpace.map (s : VASpaceState) (mem : Option Nat) (alignment : Nat) :
    Nat × VASpaceState :=
  match mem with
  | none => (0, s)
  | some size =>
    let alignedVa := (s.currentVaOffset + (alignment - 1)) &&& (2 ^ 64 - alignment)
    if alignedVa + size > s.vaLimit then
      (0, s)
    else
      (alignedVa, { s with currentVaOffset := alignedVa + size })

/-! ## Compute channel (`NVDAALChannel.cpp`, unnamed part_000) -/

/-- One 16-byte GPFIFO entry `{address, length, flags}`. -/
structure NvGpfifoEntry where
  address : Nat
  length : Nat
  flags : Nat
  deriving Repr, DecidableEq

/-- The submit-relevant state of `NVDAALChannel`: the GPFIFO ring
contents, the ring size, the put and get indices and UserD word 0. -/
structure ChannelState where
  gpfifoRing : Nat → NvGpfifoEntry
  ringSize : Nat
  put : Nat
  get : Nat
  userd0 : Nat

/-- `NVDAALChannel::init` sets `ringSize = 0x1000` ("4096 entries") and
zero put/get (part_000 lines 208-219); `boot` zero-fills the ring and
UserD page. -/
def Channel.init : ChannelState :=
  { gpfifoRing := fun _ => { address := 0, length := 0, flags := 0 }
    ringSize := 0x1000
    put := 0
    get := 0
    userd0 := 0 }

/-- `NVDAALChannel::submit(pbGpuAddr, pbLength)` (part_000 lines 324-347):
unconditionally store the entry at the current put index with `flags = 1`,
advance `put` modulo the ring size, mirror the new put value to UserD
word 0, and return true. -/
def Channel.submit (s : ChannelState) (pbGpuAddr pbLength : Nat) :
    Bool × ChannelState :=
  let ring := Function.update s.gpfifoRing s.put
    { address := pbGpuAddr, length := pbLength, flags := 1 }
  let newPut := (s.put + 1) % s.ringSize
  (true, { s with gpfifoRing := ring, put := newPut, userd0 := newPut })

/-! ## Radix3 page-table builder (`NVDAALGsp::buildRadix3PageTable`,
NVDAALGsp.cpp lines 1024-1104)

The table buffer is modelled as a flat map from 64-bit-entry index to
value; `memset` zeroes it and each source loop performs indexed writes.
`GSP_PAGE_SIZE` is 4096 (4 KiB GSP pages, stated by source and spec). -/

def GSP_PAGE_SIZE : Nat := 0x1000

/-- A loop writing `v i` at index `base + i` for `i < count`, in
increasing order, over a flat index-to-value map. -/
def fillN (t : Nat → Nat) (base : Nat) (v : Nat → Nat) : Nat → (Nat → Nat)
  | 0 => t
  | c + 1 => Function.update (fillN t base v c) (base + c) (v c)

theorem fillN_of_lt (t : Nat → Nat) (base : Nat) (v : Nat → Nat) (c i : Nat)
    (h : i < c) : fillN t base v c (base + i) = v i := by
  induction c with
  | zero => omega
  | succ c ih =>
    unfold fillN
    rcases Nat.lt_or_ge i c with hc | hc
    · rw [Function.update_noteq (by omega)]
      exact ih hc
    · have : i = c := by omega
      subst this
      rw [Function.update_same]

theorem fillN_of_notin (t : Nat → Nat) (base : Nat) (v : Nat → Nat) (c j : Nat)
    (h : j < base ∨ base + c ≤ j) : fillN t base v c j = t j := by
  induction c with
  | zero => rfl
  | succ c ih =>
    unfold fillN
    rw [Function.update_noteq (by omega)]
    exact ih (by omega)

/-- The level-2 (leaf) fill loop: writes `pagePhys(i·4096) | 1` at
`l2Table[i]` for each firmware page, failing (like the source's
`return false`) when the descriptor reports physical address 0. -/
def fillL2 (pagePhys : Nat → Nat) (l2Base : Nat) (t : Nat → Nat) :
    Nat → Nat → Option (Nat → Nat)
  | _, 0 => some t
  | i, n + 1 =>
    let phys := pagePhys (i * GSP_PAGE_SIZE)
    if phys = 0 then none
    else fillL2 pagePhys l2Base (Function.update t (l2Base + i) (phys % 2 ^ 64 ||| 1))
      (i + 1) n

/-- The result of `buildRadix3PageTable`: whether it succeeded, the
byte size of the table allocation and the flat table contents. -/
structure Radix3Result where
  ok : Bool
  tableSize : Nat
  table : Nat → Nat

/-- `l1Phys` of the builder: physical address of the first L1 page,
one page past the root. -/
def radix3L1Phys (radix3Phys : Nat) : Nat :=
  (radix3Phys + GSP_PAGE_SIZE) % 2 ^ 64

/-- `l2Phys` of the builder: physical address of the first L2 page,
past all L1 pages. -/
def radix3L2Phys (radix3Phys numL1 : Nat) : Nat :=
  (radix3L1Phys radix3Phys + numL1 * GSP_PAGE_SIZE) % 2 ^ 64

/-- The zeroed table after the root and L1 fill loops (lines 1057-1085):
root entries `(l1Phys + i·4096) | 1` at flat indices `i < numL1`, L1
entries `(l2Phys + i·4096) | 1` at flat indices `512 + i`, `i < numL2`. -/
def radix3Tables (radix3Phys numL1 numL2 : Nat) : Nat → Nat :=
  fillN
    (fillN (fun _ => 0) 0
      (fun i => (radix3L1Phys radix3Phys + i * GSP_PAGE_SIZE) % 2 ^ 64 ||| 1)
      numL1)
    512
    (fun i => (radix3L2Phys radix3Phys numL1 + i * GSP_PAGE_SIZE) % 2 ^ 64 ||| 1)
    numL2

/-- `NVDAALGsp::buildRadix3PageTable(firmware, size)`.  `pagePhys k` is
the bus-physical address that `firmwareMem->getPhysicalSegment(k, ..)`
reports for byte offset `k`; `radix3Phys` is the physical address of the
table allocation.  Arithmetic is 64-bit in the source; sums that the
source computes in `uint64_t` are reduced `% 2 ^ 64`. -/
def buildRadix3PageTable (size : Nat) (pagePhys : Nat → Nat)
    (radix3Phys : Nat) : Radix3Result :=
  let numPages := (size + GSP_PAGE_SIZE - 1) / GSP_PAGE_SIZE
  let numL2Tables := (numPages + 511) / 512
  let numL1Tables := (numL2Tables + 511) / 512
  let tableSize := (1 + numL1Tables + numL2Tables) * GSP_PAGE_SIZE
  let t2 := radix3Tables radix3Phys numL1Tables numL2Tables
  match fillL2 pagePhys (512 + numL1Tables * 512) t2 0 numPages with
  | none => { ok := false, tableSize := tableSize, table := t2 }
  | some t3 => { ok := true, tableSize := tableSize, table := t3 }

/-! ## RISC-V start polling (`NVDAALGsp::startRiscv`, lines 1607-1678)

Register reads are time-varying: `status i` and `retcode i` are the
values of `RISCV_CPUCTL` and `RISCV_BR_RETCODE` observed at iteration `i`
of the 100 × 1 ms polling loop.  The loop body checks the ACTIVE bit
first (returning success), then classifies `BR_RETCODE`, emitting a
"Boot error detected" diagnostic exactly when the value is neither 0 nor
`0xbadf5040`; no retcode value terminates the loop. -/

/-- The polling loop of `startRiscv`, starting at iteration `i` with `n`
iterations left.  Returns whether ACTIVE was observed and the list of
iterations at which the boot-error diagnostic was emitted. -/
def riscvPollLoop (activeMask : Nat) (status retcode : Nat → Nat) :
    Nat → Nat → Bool × List Nat
  | _, 0 => (false, [])
  | i, n + 1 =>
    if status i &&& activeMask ≠ 0 then
      (true, [])
    else
      let rest := riscvPollLoop activeMask status retcode (i + 1) n
      (rest.1,
        (if retcode i ≠ 0 ∧ retcode i ≠ 0xbadf5040 then [i] else []) ++ rest.2)

/-- The 100-iteration poll of `startRiscv` on `CPUCTL.ACTIVE`.
`activeMask` is the mask `NV_PRISCV_CPUCTL_ACTIVE` from the missing
`NVDAALGsp.h` (modelled from the spec as an arbitrary non-trivial mask:
the spec names the bit but not its position). -/
def startRiscvPoll (activeMask : Nat) (status retcode : Nat → Nat) :
    Bool × List Nat :=
  riscvPollLoop activeMask status retcode 0 100

/-! ## VBIOS / FWSEC parsing (`NVDAALGsp::parseVbios`, lines 377-731)

The VBIOS buffer is a byte oracle `d : Nat → Nat` with length `size`,
matching the `(const uint8_t *data, size_t size)` source signature.
Multi-byte fields are little-endian, per the packed structures declared in
the repository (`test_vbios_parse.c`, `vbios.h`): `BitHeader` has
`headerSize/tokenSize/tokenCount` at bytes 8/9/10, `BitToken` is
`{id:u8, version:u8, dataSize:u16, dataOffset:u16}` (6 bytes),
`PmuLookupTableHeader` is `{version, headerSize, entrySize, entryCount,
descVersion, reserved}` (6 bytes), the pre-Ada `PmuLookupEntry` is
`{appId:u8, targetId:u8, dataOffset:u32}` and the Ada `PmuLookupEntryAda`
is `{appId:u16, dataOffset:u32}` (6 bytes each), `VbiosRomHeader` has the
PCIR pointer at byte 0x18 and `VbiosPcirHeader` (28 bytes) has
`imageLength` at byte 16, `codeType` at 20 and `indicator` at 21.

The size-bound subtractions (`size - 6`, `size - entrySize`,
`dmemSize - 4`) are `Nat` truncated subtraction; the C source computes
them in unsigned arithmetic where an operand smaller than the subtrahend
would wrap and make the subsequent scan read out of bounds (undefined
behaviour), so the embedding takes the in-bounds reading.  Loops whose C
progress can stall (a zero-length PCIR image) carry explicit fuel. -/

/-- Read one byte of the VBIOS buffer. -/
def read8 (d : Nat → Nat) (i : Nat) : Nat := d i % 256

/-- Little-endian 16-bit read. -/
def read16 (d : Nat → Nat) (i : Nat) : Nat :=
  read8 d i + 2 ^ 8 * read8 d (i + 1)

/-- Little-endian 32-bit read. -/
def read32 (d : Nat → Nat) (i : Nat) : Nat :=
  read8 d i + 2 ^ 8 * read8 d (i + 1) + 2 ^ 16 * read8 d (i + 2) +
    2 ^ 24 * read8 d (i + 3)

/-- The extracted `FalconUcodeInfo` (the `fwsecInfo` member, zeroed at
construction).  Field names follow the source. -/
structure FwsecInfo where
  valid : Bool := false
  fwOffset : Nat := 0
  storedSize : Nat := 0
  imemOffset : Nat := 0
  imemSize : Nat := 0
  imemSecSize : Nat := 0
  dmemOffset : Nat := 0
  dmemSize : Nat := 0
  sigOffset : Nat := 0
  sigSize : Nat := 0
  bootVec : Nat := 0
  dmemMapperOffset : Nat := 0
  deriving Repr, DecidableEq

/-- Modelled from the spec: `sizeof(FalconUcodeDescV3)` for the kext's
descriptor struct in the missing `NVDAALGsp.h`.  The spec (Phase G) lists
its consumed fields — IMEM offset/size, secure-IMEM size, DMEM
offset/size, signature offset/size, boot vector — plus the `dataSize`
fallback; they are modelled as nine consecutive u32 fields, 36 bytes. -/
def FALCON_UCODE_DESC_V3_SIZE : Nat := 36

/-- Step 1 of `parseVbios` (lines 388-431): enumerate `0x55AA`-signature
PCIR images at 512-byte boundaries and record the first image of code
type 0xE0 (FWSEC) as `(fwsecStart, fwsecLen)`.  Fuel bounds the walk. -/
def scanImagesLoop (d : Nat → Nat) (size : Nat) :
    Nat → Nat → Nat → Nat → Nat × Nat
  | _, fs, fl, 0 => (fs, fl)
  | off, fs, fl, fuel + 1 =>
    if off < size - 2 then
      if off % 512 = 0 ∧ read8 d off = 0x55 ∧ read8 d (off + 1) = 0xAA then
        let pciOff := read16 d (off + 0x18)
        if pciOff = 0 ∨ off + pciOff + 28 > size then
          scanImagesLoop d size (off + 512) fs fl fuel
        else if read32 d (off + pciOff) ≠ 0x52494350 then
          scanImagesLoop d size (off + 512) fs fl fuel
        else
          let imageLen := read16 d (off + pciOff + 16) * 512
          let isFwsec := read8 d (off + pciOff + 20) = 0xE0 ∧ fs = 0
          let fs' := if isFwsec then off else fs
          let fl' := if isFwsec then imageLen else fl
          if read8 d (off + pciOff + 21) &&& 0x80 ≠ 0 then (fs', fl')
          else scanImagesLoop d size (off + imageLen) fs' fl' fuel
      else scanImagesLoop d size (off + 512) fs fl fuel
    else (fs, fl)

/-- `(fwsecStart, fwsecLen)` after the image enumeration. -/
def scanImages (d : Nat → Nat) (size : Nat) : Nat × Nat :=
  scanImagesLoop d size 0 0 0 size

/-- Does the 6-byte BIT pattern `FF B8 'B' 'I' 'T' 00` start at `i`? -/
def bitPatternAt (d : Nat → Nat) (i : Nat) : Prop :=
  read8 d i = 0xFF ∧ read8 d (i + 1) = 0xB8 ∧ read8 d (i + 2) = 0x42 ∧
    read8 d (i + 3) = 0x49 ∧ read8 d (i + 4) = 0x54 ∧ read8 d (i + 5) = 0
instance (d : Nat → Nat) (i : Nat) : Decidable (bitPatternAt d i) := by
  unfold bitPatternAt
  infer_instance

/-- The BIT-header byte scan (lines 455-466): first `i < size - 6` at
which the pattern matches, 0 when none (the source leaves `bitOffset` at
its initial 0). -/
def findBitLoop (d : Nat → Nat) : Nat → Nat → Nat
  | _, 0 => 0
  | i, fuel + 1 => if bitPatternAt d i then i else findBitLoop d (i + 1) fuel

/-- The image-base loop (lines 459-463): the last 512-step offset
`j < size - 2` bearing `0x55AA` with `j ≤ bitOffset`, else 0. -/
def imageBaseLoop (d : Nat → Nat) (size bitOffset : Nat) :
    Nat → Nat → Nat → Nat
  | acc, _, 0 => acc
  | acc, j, fuel + 1 =>
    if j < size - 2 then
      let acc' :=
        if read8 d j = 0x55 ∧ read8 d (j + 1) = 0xAA ∧ j ≤ bitOffset then j
        else acc
      imageBaseLoop d size bitOffset acc' (j + 512) fuel
    else acc

/-- Step 3 (lines 481-503): walk the BIT tokens, recording the last
token-0x50 `(imageBase + dataOffset, dataSize)` and the last token-0x70
`imageBase + dataOffset`. -/
def collectTokens (d : Nat → Nat) (size imageBase tokenSize : Nat) :
    Nat → Nat × Nat × Nat → Nat → Nat × Nat × Nat
  | _, acc, 0 => acc
  | tokenOffset, acc, count + 1 =>
    if tokenOffset < size - 6 then
      let acc' :=
        if read8 d tokenOffset = 0x50 then
          (imageBase + read16 d (tokenOffset + 4), read16 d (tokenOffset + 2),
            acc.2.2)
        else if read8 d tokenOffset = 0x70 then
          (acc.1, acc.2.1, imageBase + read16 d (tokenOffset + 4))
        else acc
      collectTokens d size imageBase tokenSize (tokenOffset + tokenSize) acc' count
    else acc

/-- The Ada PMU-lookup-table header signature check (lines 537-540):
version 1, headerSize 6, entrySize 6, entryCount in `[1, 32]`. -/
def pmuSigOk (d : Nat → Nat) (off : Nat) : Prop :=
  read8 d off = 1 ∧ read8 d (off + 1) = 6 ∧ read8 d (off + 2) = 6 ∧
    1 ≤ read8 d (off + 3) ∧ read8 d (off + 3) ≤ 32
instance (d : Nat → Nat) (off : Nat) : Decidable (pmuSigOk d off) := by
  unfold pmuSigOk
  infer_instance

/-- Step 4's candidate walk over the token-0x50 offset array
(lines 526-548): the first in-bounds non-zero candidate whose header
passes the signature check, among the first `min numOffsets 64`. -/
def token50Loop (d : Nat → Nat) (size pmuTokenOffset : Nat) :
    Nat → Nat → Option Nat
  | _, 0 => none
  | i, fuel + 1 =>
    if i < 64 then
      let cand := read32 d (pmuTokenOffset + 4 * i)
      if cand ≠ 0 ∧ cand + 6 ≤ size ∧ pmuSigOk d cand then some cand
      else token50Loop d size pmuTokenOffset (i + 1) fuel
    else none

/-- Outcome of steps 4/4b/5: an early `return false`, "no PMU table found
via BIT tokens" (`return true` with `valid = false`), or a resolved table
offset whose 6-byte header is in bounds. -/
inductive PmuResolution where
  | earlyFalse
  | noTable
  | table (off : Nat)
  deriving Repr, DecidableEq

/-- Steps 4, 4b and 5 of `parseVbios` (lines 505-583): try the Ada token
0x50 candidate array, then the pre-Ada token 0x70 indirection, reporting
how the PMU lookup table was (or was not) resolved. -/
def resolvePmuTable (d : Nat → Nat) (size imageBase pmuOff pmuSize falcOff : Nat) :
    PmuResolution :=
  let after50 : PmuResolution :=
    if falcOff ≠ 0 then
      if falcOff + 8 > size then .earlyFalse
      else
        let t := imageBase + read32 d falcOff
        if t ≠ 0 ∧ t + 6 ≤ size then .table t else .noTable
    else .noTable
  if pmuOff ≠ 0 ∧ pmuSize ≥ 2 then
    if pmuOff + pmuSize > size then .earlyFalse
    else
      match token50Loop d size pmuOff 0 (pmuSize / 4) with
      | some c => .table c
      | none => after50
  else after50

/-- The inner entry probe of the brute-force scan (lines 602-613): does
one of the first `count` 6-byte entries after the candidate header carry
application id 0x85? -/
def bruteEntryCheck (d : Nat → Nat) (size : Nat) : Nat → Nat → Bool
  | _, 0 => false
  | eo, count + 1 =>
    if eo + 6 ≤ size then
      if read8 d eo = 0x85 then true else bruteEntryCheck d size (eo + 6) count
    else false

/-- The brute-force byte-aligned PMU-table scan (lines 592-615): starting
at 0x9000, step 4, while `searchOffset < size - 0x100`, find a header
passing the signature check with an entry of application id 0x85. -/
def bruteScanLoop (d : Nat → Nat) (size : Nat) : Nat → Nat → Option Nat
  | _, 0 => none
  | so, fuel + 1 =>
    if so < size - 0x100 then
      if pmuSigOk d so ∧
          bruteEntryCheck d size (so + read8 d (so + 1)) (read8 d (so + 3)) then
        some so
      else bruteScanLoop d size (so + 4) fuel
    else none

def bruteScanPmu (d : Nat → Nat) (size : Nat) : Option Nat :=
  bruteScanLoop d size 0x9000 size

/-- The DMEMMAPPER byte scan (lines 709-718): first 4-aligned
`j < dmemSize - 4` at which the magic `0x50414D44` ("DMAP") appears in
the DMEM range, 0 when none (the field keeps its zeroed value). -/
def dmapScan (d : Nat → Nat) (dmemOffset dmemSize : Nat) : Nat → Nat → Nat
  | _, 0 => 0
  | j, fuel + 1 =>
    if j < dmemSize - 4 then
      if read32 d (dmemOffset + j) = 0x50414D44 then j
      else dmapScan d dmemOffset dmemSize (j + 4) fuel
    else 0

/-- The PMU-entry walk, steps E-G (lines 628-724): find the first entry
with application id 0x85 (or the 0x01 fallback), optionally unwrap an
`NVFW_BIN_HDR` (vendor 0x10DE, version in `[1,16]`, 24 bytes, with
`storedSize` right after it and `headerOffset` at byte 12 — modelled from
the spec, Phase F), read the ucode descriptor and populate `FwsecInfo`. -/
def pmuEntryLoop (d : Nat → Nat) (size fwsecStart : Nat) (isAda : Bool)
    (entrySize : Nat) : Nat → Nat → FwsecInfo
  | _, 0 => {}
  | eo, count + 1 =>
    if eo < size - entrySize then
      let appId := if isAda then read16 d eo else read8 d eo
      let dataOffset := read32 d (eo + 2)
      if appId = 0x85 ∨ appId = 0x01 then
        let uo :=
          if dataOffset < fwsecStart then dataOffset + fwsecStart else dataOffset
        if uo + FALCON_UCODE_DESC_V3_SIZE > size then
          pmuEntryLoop d size fwsecStart isAda entrySize (eo + entrySize) count
        else
          let hasBin := read16 d uo = 0x10DE ∧ 1 ≤ read16 d (uo + 2) ∧
            read16 d (uo + 2) ≤ 0x10
          let storedSize := if hasBin then read32 d (uo + 24) else 0
          let udo := if hasBin then uo + read32 d (uo + 12) else uo
          if udo + FALCON_UCODE_DESC_V3_SIZE > size then
            pmuEntryLoop d size fwsecStart isAda entrySize (eo + entrySize) count
          else
            let dmemOffset := udo + read32 d (udo + 12)
            let dmemSize := read32 d (udo + 16)
            { valid := true
              fwOffset := uo
              storedSize := if storedSize > 0 then storedSize
                else read32 d (udo + 32)
              imemOffset := udo + read32 d udo
              imemSize := read32 d (udo + 4)
              imemSecSize := read32 d (udo + 8)
              dmemOffset := dmemOffset
              dmemSize := dmemSize
              sigOffset := udo + read32 d (udo + 20)
              sigSize := read32 d (udo + 24)
              bootVec := read32 d (udo + 28)
              dmemMapperOffset :=
                if dmemOffset + dmemSize ≤ size then
                  dmapScan d dmemOffset dmemSize 0 dmemSize
                else 0 }
      else pmuEntryLoop d size fwsecStart isAda entrySize (eo + entrySize) count
    else {}

/-- The result of `parseVbios`: its boolean return value, the `fwsecInfo`
member it leaves behind, and whether the brute-force pattern search
(the "searching by pattern" branch, lines 589-620) was entered. -/
structure ParseResult where
  ret : Bool
  info : FwsecInfo
  didBruteScan : Bool
  deriving Repr, DecidableEq

/-- The plausibility test on a resolved PMU table header (line 589):
`entryCount == 0 || version > 10 || entrySize < 4 || entrySize > 200`. -/
def pmuHeaderRejected (d : Nat → Nat) (off : Nat) : Prop :=
  read8 d (off + 3) = 0 ∨ read8 d off > 10 ∨ read8 d (off + 2) < 4 ∨
    read8 d (off + 2) > 200
instance (d : Nat → Nat) (off : Nat) : Decidable (pmuHeaderRejected d off) := by
  unfold pmuHeaderRejected
  infer_instance

/-- Steps 1-5 of `parseVbios` up to the PMU-table resolution: `none` when
the BIT header is not found (lines 468-472), otherwise the outcome of
steps 4/4b/5 over the tokens collected relative to the containing image. -/
def vbiosResolution (d : Nat → Nat) (size : Nat) : Option PmuResolution :=
  let bitOffset := findBitLoop d 0 (size - 6)
  if bitOffset = 0 then none
  else
    let imageBase := imageBaseLoop d size bitOffset 0 0 (size / 512 + 1)
    let headerSize := read8 d (bitOffset + 8)
    let tokenSize := read8 d (bitOffset + 9)
    let tokenCount := read8 d (bitOffset + 10)
    let toks := collectTokens d size imageBase tokenSize (bitOffset + headerSize)
      (0, 0, 0) tokenCount
    some (resolvePmuTable d size imageBase toks.1 toks.2.1 toks.2.2)

/-- The tail of `parseVbios` after PMU-table resolution (lines 579-731):
give up on `noTable`, return false on the early bound failures, otherwise
run the plausibility check, possibly the brute-force pattern search, and
finally the PMU-entry walk. -/
def parseAfterResolve (d : Nat → Nat) (size fwsecStart : Nat) :
    PmuResolution → ParseResult
  | .earlyFalse => { ret := false, info := {}, didBruteScan := false }
  | .noTable => { ret := true, info := {}, didBruteScan := false }
  | .table off =>
    if pmuHeaderRejected d off then
      let off2 := (bruteScanPmu d size).getD off
      let hs2 := read8 d (off2 + 1)
      let es2 := read8 d (off2 + 2)
      let cnt2 := read8 d (off2 + 3)
      { ret := true
        info := pmuEntryLoop d size fwsecStart (hs2 = 6 ∧ es2 = 6) es2
          (off2 + hs2) cnt2
        didBruteScan := true }
    else
      let hs := read8 d (off + 1)
      let es := read8 d (off + 2)
      let cnt := read8 d (off + 3)
      { ret := true
        info := pmuEntryLoop d size fwsecStart (hs = 6 ∧ es = 6) es (off + hs)
          cnt
        didBruteScan := false }

/-- `NVDAALGsp::parseVbios(vbios, size)`. -/
def parseVbios (d : Nat → Nat) (size : Nat) : ParseResult :=
  let fwsecStart := (scanImages d size).1
  match vbiosResolution d size with
  | none => { ret := true, info := {}, didBruteScan := false }
  | some res => parseAfterResolve d size fwsecStart res

/-! ## FWSEC-FRTS orchestration (`NVDAALGsp::executeFwsecFrts`,
lines 1323-1495) and `NVDAALGsp::checkWpr2Setup` (lines 1297-1313)

MMIO is modelled by a time-indexed oracle `oracle t addr`: the value a
32-bit read of `addr` returns when it is the `t`-th register access, so
the hardware may change between polls.  Every access is recorded in an
event trace.  The three loader/strategy subroutines that the claims never
reach on the early-return path (`executeFwsecViaBrom`,
`loadFalconUcodeDma`, `loadFalconUcode`) are taken as parameters of the
embedding, quantified over in the theorems. -/

/-- One GPU access performed by the driver. -/
inductive GpuEvent where
  | read (addr val : Nat)
  | write (addr val : Nat)
  | delayUs (us : Nat)
  deriving Repr, DecidableEq

/-- Is the event a register read? -/
def GpuEvent.isRead : GpuEvent → Bool
  | .read _ _ => true
  | _ => false

/-- Access counter plus accumulated event list. -/
structure Trace where
  t : Nat
  events : List GpuEvent
  deriving Repr, DecidableEq

/-- `readReg`: consult the oracle at the current access index. -/
def readReg (oracle : Nat → Nat → Nat) (tr : Trace) (addr : Nat) : Nat × Trace :=
  let v := oracle tr.t addr
  (v, { t := tr.t + 1, events := tr.events ++ [GpuEvent.read addr v] })

/-- `writeReg`: record a register write. -/
def writeReg (tr : Trace) (addr val : Nat) : Trace :=
  { t := tr.t + 1, events := tr.events ++ [GpuEvent.write addr val] }

/-- `IODelay`: record a microsecond delay. -/
def ioDelay (tr : Trace) (us : Nat) : Trace :=
  { tr with events := tr.events ++ [GpuEvent.delayUs us] }

/-- Register addresses used on these paths.  `WPR2_ADDR_HI/LO` appear in
the repository (`falcon.h`, part_003); the remaining constants are from
the spec's register catalog (GSP Falcon block at 0x110000, `CPUCTL` at
+0x100, `BOOTVEC` at +0x104, `PBUS SW_SCRATCH_0E` at 0x1454). -/
def NV_PFB_PRI_MMU_WPR2_ADDR_LO : Nat := 0x1FA824
def NV_PFB_PRI_MMU_WPR2_ADDR_HI : Nat := 0x1FA828
/-- Modelled from the spec: `NV_PFB_PRI_MMU_WPR2_ADDR_LO_VAL` is declared
in the missing register catalog header; the spec only names the register,
so its address is a placeholder distinct from the others. -/
def NV_PFB_PRI_MMU_WPR2_ADDR_LO_VAL : Nat := 0x1FA82C
def NV_PGSP_BASE : Nat := 0x110000
def NV_PGSP_FALCON_CPUCTL : Nat := NV_PGSP_BASE + 0x100
def FALCON_BOOTVEC : Nat := 0x104
def NV_PBUS_SW_SCRATCH_0E : Nat := 0x1454
def FALCON_CPUCTL_STARTCPU : Nat := 2
def FALCON_CPUCTL_HALTED : Nat := 0x10
def DMEMMAPPER_CMD_FRTS : Nat := 0x15

/-- Modelled from the spec: the macro `NV_PFB_WPR2_ENABLED` lives in the
missing `NVDAALGsp.h`.  The spec's scenario "write `0x80000001` to
`WPR2_ADDR_HI` → enabled" and the repository's register notes
("bit 31 = enabled") fix it as the test of bit 31. -/
def NV_PFB_WPR2_ENABLED (v : Nat) : Bool := v.testBit 31

/-- `NVDAALGsp::checkWpr2Setup` (lines 1297-1313): read `WPR2_ADDR_HI`
and `WPR2_ADDR_LO`; when the enabled bit is set, also read
`WPR2_ADDR_LO_VAL`, compose the `wpr2Lo`/`wpr2Hi` members and report
success. -/
def checkWpr2Setup (oracle : Nat → Nat → Nat) (tr : Trace) :
    Bool × Option (Nat × Nat) × Trace :=
  let (hi, tr1) := readReg oracle tr NV_PFB_PRI_MMU_WPR2_ADDR_HI
  let (lo, tr2) := readReg oracle tr1 NV_PFB_PRI_MMU_WPR2_ADDR_LO
  if NV_PFB_WPR2_ENABLED hi then
    let (loVal, tr3) := readReg oracle tr2 NV_PFB_PRI_MMU_WPR2_ADDR_LO_VAL
    let wpr2Hi := ((hi &&& 0xFFFFF) <<< 32) ||| (lo &&& 0xFFF00000)
    let wpr2Lo := (loVal &&& 0xFFFFF) <<< 12
    (true, some (wpr2Lo, wpr2Hi), tr3)
  else (false, none, tr2)

/-- Method 2's halt-wait (lines 1392-1403): up to 1000 polls of the GSP
Falcon `CPUCTL`; on HALTED, verify WPR2 — success returns (early
`return true` in the source), otherwise break and fall through. -/
def frtsDmaPoll (oracle : Nat → Nat → Nat) :
    Trace → Nat → Option (Option (Nat × Nat)) × Trace
  | tr, 0 => (none, tr)
  | tr, fuel + 1 =>
    let (cpuctl, tr1) := readReg oracle tr NV_PGSP_FALCON_CPUCTL
    if cpuctl &&& FALCON_CPUCTL_HALTED ≠ 0 then
      let (en, wpr2, tr2) := checkWpr2Setup oracle tr1
      if en then (some wpr2, tr2) else (none, tr2)
    else frtsDmaPoll oracle (ioDelay tr1 1000) fuel

/-- Method 3's completion wait (lines 1466-1485): up to 1000 polls of
`CPUCTL` and `SW_SCRATCH_0E`; stop on HALTED (values feed logs only). -/
def frtsPioPoll (oracle : Nat → Nat → Nat) : Trace → Nat → Trace
  | tr, 0 => tr
  | tr, fuel + 1 =>
    let (cpuctl, tr1) := readReg oracle tr NV_PGSP_FALCON_CPUCTL
    let (_, tr2) := readReg oracle tr1 NV_PBUS_SW_SCRATCH_0E
    if cpuctl &&& FALCON_CPUCTL_HALTED ≠ 0 then tr2
    else frtsPioPoll oracle (ioDelay tr2 1000) fuel

/-- Result of `executeFwsecFrts`: return value, accumulated GPU events,
the WPR2 bounds recorded by a successful `checkWpr2Setup`, and the
`fwsecInfo` member state it leaves behind. -/
structure FrtsResult where
  ok : Bool
  events : List GpuEvent
  wpr2 : Option (Nat × Nat)
  info : FwsecInfo

/-- `NVDAALGsp::executeFwsecFrts` (lines 1323-1495).  `brom`, `dmaLoad`
and `pioLoad` abstract `executeFwsecViaBrom`, `loadFalconUcodeDma` and
`loadFalconUcode`; `pioLoad` receives the patched DMEM copy.  `fwsecMem`
is the VBIOS buffer (byte oracle and length) or `none` when no VBIOS is
loaded.  The DMEMMAPPER patch writes the FRTS command `0x15` into the
`initCmd` field at byte 0x20 of the DMAP block (offset per the spec;
`sizeof(DmemMapperHeader)` is 44 bytes per the repository's
`FALCON_APPIF_DMEMMAPPER_V3`). -/
def executeFwsecFrts (oracle : Nat → Nat → Nat)
    (brom : Trace → Bool × Trace)
    (dmaLoad : Trace → Bool × Trace)
    (pioLoad : (Nat → Nat) → Trace → Bool × Trace)
    (fwsecMem : Option ((Nat → Nat) × Nat)) (fwsecPhys : Nat)
    (fwsecInfo0 : FwsecInfo) : FrtsResult :=
  let tr0 : Trace := { t := 0, events := [] }
  let (_, tr1) := readReg oracle tr0 NV_PFB_PRI_MMU_WPR2_ADDR_HI
  let (_, tr2) := readReg oracle tr1 NV_PFB_PRI_MMU_WPR2_ADDR_LO
  match checkWpr2Setup oracle tr2 with
  | (true, wpr2, tr3) =>
    { ok := true, events := tr3.events, wpr2 := wpr2, info := fwsecInfo0 }
  | (false, _, tr3) =>
    match fwsecMem with
    | none => { ok := false, events := tr3.events, wpr2 := none, info := fwsecInfo0 }
    | some (vbiosData, vbiosSize) =>
      let parsed := parseVbios vbiosData vbiosSize
      let parseFailed := !fwsecInfo0.valid && !parsed.ret
      let info := if fwsecInfo0.valid then fwsecInfo0 else parsed.info
      if parseFailed then
        { ok := false, events := tr3.events, wpr2 := none, info := info }
      else if !info.valid then
        { ok := false, events := tr3.events, wpr2 := none, info := info }
      else
        -- METHOD 1: Boot ROM interface
        let m1 : Option (Bool × Trace) :=
          if info.storedSize > 0 ∧ fwsecPhys ≠ 0 then some (brom tr3) else none
        match m1 with
        | some (true, trB) =>
          { ok := true, events := trB.events, wpr2 := none, info := info }
        | m1res =>
          let tr4 := match m1res with
            | some (_, trB) => trB
            | none => tr3
          -- METHOD 2: DMA loading
          let m2 : Option (Option (Option (Nat × Nat)) × Trace) :=
            if fwsecPhys ≠ 0 ∧ info.storedSize > 0 then
              let (okDma, trD) := dmaLoad tr4
              if okDma then some (frtsDmaPoll oracle trD 1000)
              else some (none, trD)
            else none
          match m2 with
          | some (some wpr2, trE) =>
            { ok := true, events := trE.events, wpr2 := wpr2, info := info }
          | m2res =>
            let tr5 := match m2res with
              | some (_, trE) => trE
              | none => tr4
            -- METHOD 3: PIO loading
            let tr6 := ioDelay (writeReg tr5 NV_PGSP_FALCON_CPUCTL 0) 100
            if info.imemOffset + info.imemSize > vbiosSize ∨
                info.dmemOffset + info.dmemSize > vbiosSize then
              { ok := false, events := tr6.events, wpr2 := none, info := info }
            else
              let dmem0 : Nat → Nat := fun j => read8 vbiosData (info.dmemOffset + j)
              let dmemCopy : Nat → Nat :=
                if info.dmemMapperOffset > 0 ∧
                    info.dmemMapperOffset + 44 ≤ info.dmemSize then
                  fun j =>
                    if j = info.dmemMapperOffset + 0x20 then DMEMMAPPER_CMD_FRTS
                    else if info.dmemMapperOffset + 0x21 ≤ j ∧
                        j ≤ info.dmemMapperOffset + 0x23 then 0
                    else dmem0 j
                else dmem0
              let (okPio, tr7) := pioLoad dmemCopy tr6
              if !okPio then
                { ok := false, events := tr7.events, wpr2 := none, info := info }
              else
                let tr8 := writeReg tr7 (NV_PGSP_BASE + FALCON_BOOTVEC) info.bootVec
                let tr9 := writeReg tr8 NV_PGSP_FALCON_CPUCTL FALCON_CPUCTL_STARTCPU
                let tr10 := frtsPioPoll oracle tr9 1000
                match checkWpr2Setup oracle tr10 with
                | (true, wpr2, tr11) =>
                  { ok := true, events := tr11.events, wpr2 := wpr2, info := info }
                | (false, _, tr11) =>
                  { ok := false, events := tr11.events, wpr2 := none, info := info }

/-! ## Shared arithmetic lemmas for the theorems -/

/-- Round-up never decreases: `x ≤ 2 ^ k · ⌈x / 2 ^ k⌉`. -/
theorem le_roundUp (k x : Nat) : x ≤ 2 ^ k * ((x + 2 ^ k - 1) / 2 ^ k) := by
  have hpos : 0 < 2 ^ k := Nat.two_pow_pos k
  have hdm := Nat.div_add_mod (x + 2 ^ k - 1) (2 ^ k)
  have hmod : (x + 2 ^ k - 1) % 2 ^ k < 2 ^ k := Nat.mod_lt _ hpos
  omega

/-! ## Claim theorems -/

/-- C10.  `NVDAALChannel::submit` returns true for every input and state,
performs no ring-occupancy check: it overwrites the GPFIFO entry at the
current put index with `{address, length, flags = 1}` regardless of the
get index, advances put modulo the ring size (4096 entries as set by
`init`), and stores the post-increment put value to UserD word 0. -/
theorem channel_submit_unconditional (s : ChannelState) (addr len : Nat) :
    (Channel.submit s addr len).1 = true ∧
    (Channel.submit s addr len).2.gpfifoRing s.put =
      { address := addr, length := len, flags := 1 } ∧
    (Channel.submit s addr len).2.put = (s.put + 1) % s.ringSize ∧
    (Channel.submit s addr len).2.userd0 = (s.put + 1) % s.ringSize ∧
    (Channel.submit s addr len).2.get = s.get ∧
    Channel.init.ringSize = 0x1000 := by
  refine ⟨rfl, ?_, rfl, rfl, rfl, rfl⟩
  simp [Channel.submit]

/-- C8 counterexample.  The claim's default range start `0x1_0000_0000`
(4 GiB) is not what `NVDAALVASpace::init` programs: the source sets
`vaStart = 0x1000000000ULL` (64 GiB). -/
theorem vaspace_init_start_cex :
    VASpace.init.vaStart ≠ 0x100000000 ∧ VASpace.init.vaStart = 0x1000000000 := by
  decide

/-- C8 (amended).  A freshly initialised VA-Space has the default range
`[0x10_0000_0000, 0xFF_FFFF_FFFF]` with the free pointer at the start,
and `map` bump-allocates: for a power-of-two alignment and a free pointer
at or above the range start, it returns the alignment-rounded next free
VA (which is ≥ the range start) and advances the free pointer by the
descriptor's length from there, and it returns 0 leaving the state
unchanged when the aligned VA plus the size would exceed the limit. -/
theorem vaspace_map_bump (s : VASpaceState) (size k : Nat) (hk : k ≤ 64)
    (hov : s.currentVaOffset + 2 ^ k ≤ 2 ^ 64)
    (hcur : s.vaStart ≤ s.currentVaOffset) :
    VASpace.init =
      { vaStart := 0x1000000000, vaLimit := 0xFFFFFFFFFF,
        currentVaOffset := 0x1000000000 } ∧
    (2 ^ k * ((s.currentVaOffset + 2 ^ k - 1) / 2 ^ k) + size > s.vaLimit →
      VASpace.map s (some size) (2 ^ k) = (0, s)) ∧
    (2 ^ k * ((s.currentVaOffset + 2 ^ k - 1) / 2 ^ k) + size ≤ s.vaLimit →
      VASpace.map s (some size) (2 ^ k) =
        (2 ^ k * ((s.currentVaOffset + 2 ^ k - 1) / 2 ^ k),
          { s with currentVaOffset :=
              2 ^ k * ((s.currentVaOffset + 2 ^ k - 1) / 2 ^ k) + size }) ∧
      s.vaStart ≤ 2 ^ k * ((s.currentVaOffset + 2 ^ k - 1) / 2 ^ k)) := by
  have halign : (s.currentVaOffset + (2 ^ k - 1)) &&& (2 ^ 64 - 2 ^ k) =
      2 ^ k * ((s.currentVaOffset + 2 ^ k - 1) / 2 ^ k) :=
    alignUp_eq k s.currentVaOffset hk hov
  refine ⟨rfl, ?_, ?_⟩
  · intro hgt
    simp only [VASpace.map, halign]
    rw [if_pos hgt]
  · intro hle
    have hnot : ¬ (2 ^ k * ((s.currentVaOffset + 2 ^ k - 1) / 2 ^ k) + size >
        s.vaLimit) := by omega
    simp only [VASpace.map, halign]
    rw [if_neg hnot]
    exact ⟨rfl, Nat.le_trans hcur (le_roundUp k s.currentVaOffset)⟩

/-- C8 witness: `map` at the fresh state with a 4 KiB mapping. -/
theorem vaspace_map_bump_witness :
    12 ≤ 64 ∧ VASpace.init.currentVaOffset + 2 ^ 12 ≤ 2 ^ 64 ∧
    VASpace.init.vaStart ≤ VASpace.init.currentVaOffset ∧
    (2 ^ 12 * ((VASpace.init.currentVaOffset + 2 ^ 12 - 1) / 2 ^ 12) + 0x1000 ≤
      VASpace.init.vaLimit →
      VASpace.map VASpace.init (some 0x1000) (2 ^ 12) =
        (2 ^ 12 * ((VASpace.init.currentVaOffset + 2 ^ 12 - 1) / 2 ^ 12),
          { VASpace.init with currentVaOffset :=
              2 ^ 12 * ((VASpace.init.currentVaOffset + 2 ^ 12 - 1) / 2 ^ 12) +
                0x1000 }) ∧
      VASpace.init.vaStart ≤
        2 ^ 12 * ((VASpace.init.currentVaOffset + 2 ^ 12 - 1) / 2 ^ 12)) :=
  ⟨by decide, by decide, by decide,
    (vaspace_map_bump VASpace.init 0x1000 12 (by decide) (by decide)
      (by decide)).2.2⟩

/-- C4.  For local head and tail in `[0, QUEUE_SIZE)`, the free-space
expression of `enqueueCommand` equals
`capacity − ((tail − head) mod capacity)`; the element size is the
16-byte header plus payload rounded up to 256 bytes, and the enqueue
fails leaving the state unchanged when the free space is smaller than
that, otherwise it advances the local tail (and the mirrored hardware
tail) by the aligned size modulo the capacity. -/
theorem enqueueCommand_free_space (s : GspQueueState) (msg : List Nat)
    (hh : s.cmdQueueHead < QUEUE_SIZE) (ht : s.cmdQueueTail < QUEUE_SIZE)
    (hlen : msg.length ≤ 2 ^ 32) :
    ((if s.cmdQueueTail ≥ s.cmdQueueHead
        then QUEUE_SIZE - s.cmdQueueTail + s.cmdQueueHead
        else s.cmdQueueHead - s.cmdQueueTail : Nat) : Int) =
      QUEUE_SIZE - ((s.cmdQueueTail : Int) - s.cmdQueueHead) % QUEUE_SIZE ∧
    ((if s.cmdQueueTail ≥ s.cmdQueueHead
        then QUEUE_SIZE - s.cmdQueueTail + s.cmdQueueHead
        else s.cmdQueueHead - s.cmdQueueTail) <
          256 * ((16 + msg.length + 255) / 256) →
      enqueueCommand s msg = (false, s)) ∧
    (256 * ((16 + msg.length + 255) / 256) ≤
        (if s.cmdQueueTail ≥ s.cmdQueueHead
          then QUEUE_SIZE - s.cmdQueueTail + s.cmdQueueHead
          else s.cmdQueueHead - s.cmdQueueTail) →
      (enqueueCommand s msg).1 = true ∧
      (enqueueCommand s msg).2.cmdQueueTail =
        (s.cmdQueueTail + 256 * ((16 + msg.length + 255) / 256)) % QUEUE_SIZE ∧
      (enqueueCommand s msg).2.hwTail =
        (s.cmdQueueTail + 256 * ((16 + msg.length + 255) / 256)) % QUEUE_SIZE ∧
      (enqueueCommand s msg).2.cmdQueueHead = s.cmdQueueHead) := by
  have halign : (16 + msg.length + 0xFF) &&& (2 ^ 64 - 0x100) =
      256 * ((16 + msg.length + 255) / 256) := by
    have h := alignUp_eq 8 (16 + msg.length) (by norm_num) (by norm_num; omega)
    norm_num at h ⊢
    omega
  refine ⟨?_, ?_, ?_⟩
  · unfold QUEUE_SIZE at *
    split <;> omega
  · intro hlt
    unfold enqueueCommand
    simp only [halign]
    rw [if_pos hlt]
  · intro hge
    unfold enqueueCommand
    simp only [halign]
    rw [if_neg (by omega)]
    exact ⟨rfl, rfl, rfl, rfl⟩

/-- C4 witness: an empty queue accepts a 16-byte payload, advancing the
tail by 0x100. -/
theorem enqueueCommand_free_space_witness :
    (({ cmdQueueHead := 0, cmdQueueTail := 0, rpcSeqNum := 0, frames := [],
        hwTail := 0, gspReady := true } : GspQueueState).cmdQueueHead <
          QUEUE_SIZE) ∧
    (({ cmdQueueHead := 0, cmdQueueTail := 0, rpcSeqNum := 0, frames := [],
        hwTail := 0, gspReady := true } : GspQueueState).cmdQueueTail <
          QUEUE_SIZE) ∧
    (List.replicate 16 (0xAB : Nat)).length ≤ 2 ^ 32 ∧
    (256 * ((16 + (List.replicate 16 (0xAB : Nat)).length + 255) / 256) ≤
        (if (0 : Nat) ≥ 0 then QUEUE_SIZE - 0 + 0 else 0 - 0) →
      (enqueueCommand
          { cmdQueueHead := 0, cmdQueueTail := 0, rpcSeqNum := 0, frames := [],
            hwTail := 0, gspReady := true }
          (List.replicate 16 (0xAB : Nat))).1 = true ∧
      (enqueueCommand
          { cmdQueueHead := 0, cmdQueueTail := 0, rpcSeqNum := 0, frames := [],
            hwTail := 0, gspReady := true }
          (List.replicate 16 (0xAB : Nat))).2.cmdQueueTail =
        (0 + 256 * ((16 + (List.replicate 16 (0xAB : Nat)).length + 255) / 256)) %
          QUEUE_SIZE ∧
      (enqueueCommand
          { cmdQueueHead := 0, cmdQueueTail := 0, rpcSeqNum := 0, frames := [],
            hwTail := 0, gspReady := true }
          (List.replicate 16 (0xAB : Nat))).2.hwTail =
        (0 + 256 * ((16 + (List.replicate 16 (0xAB : Nat)).length + 255) / 256)) %
          QUEUE_SIZE ∧
      (enqueueCommand
          { cmdQueueHead := 0, cmdQueueTail := 0, rpcSeqNum := 0, frames := [],
            hwTail := 0, gspReady := true }
          (List.replicate 16 (0xAB : Nat))).2.cmdQueueHead = 0) :=
  ⟨by decide, by decide, by decide,
    (enqueueCommand_free_space
      { cmdQueueHead := 0, cmdQueueTail := 0, rpcSeqNum := 0, frames := [],
        hwTail := 0, gspReady := true }
      (List.replicate 16 (0xAB : Nat)) (by decide) (by decide) (by decide)).2.2⟩

/-- C5.  `calcChecksum` equals the standard CRC-32 (reflected polynomial
`0xEDB88320`, initial value `0xFFFFFFFF`, final complement) on every
input, and a successful `enqueueCommand` stores into the frame's
`checkSum` field the CRC-32 of exactly the payload bytes — the 16-byte
frame header is not part of the checksummed range. -/
theorem calcChecksum_is_crc32_of_payload (s : GspQueueState) (msg : List Nat)
    (h : (enqueueCommand s msg).1 = true) :
    (∀ data : List Nat, calcChecksum data = crc32Spec data) ∧
    ∃ f : GspFrame, (enqueueCommand s msg).2.frames = s.frames ++ [f] ∧
      f.checkSum = crc32Spec msg ∧ f.payload = msg := by
  refine ⟨calcChecksum_eq_crc32Spec, ?_⟩
  simp only [enqueueCommand] at h ⊢
  by_cases hc : (if s.cmdQueueTail ≥ s.cmdQueueHead
      then QUEUE_SIZE - s.cmdQueueTail + s.cmdQueueHead
      else s.cmdQueueHead - s.cmdQueueTail) <
        16 + msg.length + 255 &&& 2 ^ 64 - 256
  · rw [if_pos hc] at h
    simp at h
  · rw [if_neg hc]
    exact ⟨_, rfl, calcChecksum_eq_crc32Spec msg, rfl⟩

/-- C5 witness: a three-byte payload on an empty queue. -/
theorem calcChecksum_is_crc32_of_payload_witness :
    (enqueueCommand
        { cmdQueueHead := 0, cmdQueueTail := 0, rpcSeqNum := 0, frames := [],
          hwTail := 0, gspReady := true } [1, 2, 3]).1 = true ∧
    ((∀ data : List Nat, calcChecksum data = crc32Spec data) ∧
      ∃ f : GspFrame,
        (enqueueCommand
            { cmdQueueHead := 0, cmdQueueTail := 0, rpcSeqNum := 0, frames := [],
              hwTail := 0, gspReady := true } [1, 2, 3]).2.frames = [] ++ [f] ∧
        f.checkSum = crc32Spec [1, 2, 3] ∧ f.payload = [1, 2, 3]) :=
  ⟨by decide,
    calcChecksum_is_crc32_of_payload
      { cmdQueueHead := 0, cmdQueueTail := 0, rpcSeqNum := 0, frames := [],
        hwTail := 0, gspReady := true } [1, 2, 3] (by decide)⟩

/-- The `status` word written as 0 at byte offset 16 of a caller-local
RM parameter buffer reads back as 0 whatever the handles and payload. -/
theorem readBuf32_status_zero (a b c d : Nat) (rest : List Nat) :
    readBuf32 (u32le a ++ u32le b ++ u32le c ++ u32le d ++ u32le 0 ++ rest) 16 =
      0 := rfl

/-- C9.  The non-zero-RM-status failure branches of `rmAlloc` and
`rmControl` are unreachable: the status field is written as 0 into the
caller-local buffer, `sendRpc` receives that buffer by value (the source
copies it into a fresh heap message and the ring, never writing back), so
the status inspected after the send is still 0 and each wrapper returns
exactly what `sendRpc` returned. -/
theorem rm_status_check_unreachable (s : GspQueueState)
    (hClient hParent hObject hClass cmd : Nat) (params : List Nat) :
    rmAlloc s hClient hParent hObject hClass params =
      sendRpc s NV_VGPU_MSG_FUNCTION_GSP_RM_ALLOC
        (allocParamsBytes hClient hParent hObject hClass 0 ++ params) ∧
    readBuf32 (allocParamsBytes hClient hParent hObject hClass 0 ++ params) 16 =
      0 ∧
    rmControl s hClient hObject cmd params =
      sendRpc s NV_VGPU_MSG_FUNCTION_GSP_RM_CONTROL
        (controlParamsBytes hClient hObject cmd 0 0 params.length ++ params) ∧
    readBuf32 (controlParamsBytes hClient hObject cmd 0 0 params.length ++ params)
      16 = 0 := by
  have hA : readBuf32 (allocParamsBytes hClient hParent hObject hClass 0 ++
      params) 16 = 0 := readBuf32_status_zero hClient hParent hObject hClass params
  have hC : readBuf32 (controlParamsBytes hClient hObject cmd 0 0 params.length ++
      params) 16 = 0 := by
    unfold controlParamsBytes
    exact rfl
  refine ⟨?_, hA, ?_, hC⟩
  · simp only [rmAlloc, hA]
    simp
  · simp only [rmControl, hC]
    simp

/-- Membership in the boot-error diagnostic list of the `startRiscv`
polling loop: iteration `i` is reported exactly when it is reached (no
earlier or current poll saw the ACTIVE bit, within the budget) and its
`BR_RETCODE` is neither 0 nor `0xbadf5040`. -/
theorem mem_riscvPollLoop (mask : Nat) (status retcode : Nat → Nat)
    (n : Nat) : ∀ start i,
    (i ∈ (riscvPollLoop mask status retcode start n).2 ↔
      (start ≤ i ∧ i < start + n ∧
        (∀ j, start ≤ j → j ≤ i → status j &&& mask = 0) ∧
        retcode i ≠ 0 ∧ retcode i ≠ 0xbadf5040)) := by
  induction n with
  | zero =>
    intro start i
    constructor
    · intro h
      simp [riscvPollLoop] at h
    · rintro ⟨h1, h2, -⟩
      omega
  | succ n ih =>
    intro start i
    by_cases hact : status start &&& mask ≠ 0
    · simp only [riscvPollLoop, if_pos hact]
      constructor
      · intro h
        simp at h
      · rintro ⟨h1, -, hz, -⟩
        exact absurd (hz start le_rfl h1) hact
    · have hact0 : status start &&& mask = 0 := by omega
      simp only [riscvPollLoop, if_neg hact]
      by_cases hrc : retcode start ≠ 0 ∧ retcode start ≠ 0xbadf5040
      · rw [if_pos hrc]
        simp only [List.mem_append, List.mem_singleton, ih (start + 1) i]
        constructor
        · rintro (hi | ⟨h1, h2, hz, hc1, hc2⟩)
          · refine ⟨by omega, by omega, ?_, by rw [hi]; exact hrc.1,
              by rw [hi]; exact hrc.2⟩
            intro j hj1 hj2
            rw [show j = start by omega]
            exact hact0
          · refine ⟨by omega, by omega, ?_, hc1, hc2⟩
            intro j hj1 hj2
            by_cases hj : j = start
            · subst hj
              exact hact0
            · exact hz j (by omega) hj2
        · rintro ⟨h1, h2, hz, hc1, hc2⟩
          by_cases hi : i = start
          · exact Or.inl hi
          · refine Or.inr ⟨by omega, by omega, ?_, hc1, hc2⟩
            intro j hj1 hj2
            exact hz j (by omega) hj2
      · rw [if_neg hrc]
        simp only [List.nil_append, ih (start + 1) i]
        constructor
        · rintro ⟨h1, h2, hz, hc1, hc2⟩
          refine ⟨by omega, by omega, ?_, hc1, hc2⟩
          intro j hj1 hj2
          by_cases hj : j = start
          · subst hj
            exact hact0
          · exact hz j (by omega) hj2
        · rintro ⟨h1, h2, hz, hc1, hc2⟩
          have hi : i ≠ start := by
            rintro rfl
            exact hrc ⟨hc1, hc2⟩
          refine ⟨by omega, by omega, ?_, hc1, hc2⟩
          intro j hj1 hj2
          exact hz j (by omega) hj2

/-- The polling outcome (ACTIVE observed or not) does not depend on the
`BR_RETCODE` stream at all. -/
theorem riscvPollLoop_fst_retcode_independent (mask : Nat)
    (status retcode retcode2 : Nat → Nat) (n : Nat) : ∀ start,
    (riscvPollLoop mask status retcode start n).1 =
      (riscvPollLoop mask status retcode2 start n).1 := by
  induction n with
  | zero =>
    intro start
    rfl
  | succ n ih =>
    intro start
    by_cases hact : status start &&& mask ≠ 0
    · simp only [riscvPollLoop, if_pos hact]
    · simp only [riscvPollLoop, if_neg hact]
      exact ih (start + 1)

/-- C2.  In `startRiscv`'s 100 × 1 ms poll of `CPUCTL.ACTIVE`, a
`BR_RETCODE` of `0xbadf5040` is treated as boot-still-in-progress (it is
never reported as a boot error), every other non-zero value observed at a
reached iteration is reported as a boot error, and the retcode stream has
no effect on the boot attempt's outcome. -/
theorem startRiscv_retcode_classification (activeMask : Nat)
    (status retcode : Nat → Nat) (i : Nat) :
    (i ∈ (startRiscvPoll activeMask status retcode).2 ↔
      (i < 100 ∧ (∀ j, j ≤ i → status j &&& activeMask = 0) ∧
        retcode i ≠ 0 ∧ retcode i ≠ 0xbadf5040)) ∧
    (retcode i = 0xbadf5040 → i ∉ (startRiscvPoll activeMask status retcode).2) ∧
    (∀ retcode2 : Nat → Nat,
      (startRiscvPoll activeMask status retcode).1 =
        (startRiscvPoll activeMask status retcode2).1) := by
  refine ⟨?_, ?_, ?_⟩
  · rw [startRiscvPoll, mem_riscvPollLoop]
    constructor
    · rintro ⟨-, h2, hz, hc1, hc2⟩
      exact ⟨by omega, fun j hj => hz j (Nat.zero_le j) hj, hc1, hc2⟩
    · rintro ⟨h1, hz, hc1, hc2⟩
      exact ⟨Nat.zero_le i, by omega, fun j _ hj => hz j hj, hc1, hc2⟩
  · intro hbad hmem
    rw [startRiscvPoll, mem_riscvPollLoop] at hmem
    exact hmem.2.2.2.2 hbad
  · intro retcode2
    exact riscvPollLoop_fst_retcode_independent activeMask status retcode retcode2
      100 0

/-- Characterisation of the leaf-fill loop: when every queried physical
page address is non-zero it succeeds, writes
`pagePhys(i·4096) % 2⁶⁴ ||| 1` at `l2Base + i`, and leaves every other
index untouched. -/
theorem fillL2_spec (pagePhys : Nat → Nat) (l2Base : Nat) (n : Nat) :
    ∀ (t : Nat → Nat) (start : Nat),
    (∀ i, start ≤ i → i < start + n → pagePhys (i * GSP_PAGE_SIZE) ≠ 0) →
    ∃ t2, fillL2 pagePhys l2Base t start n = some t2 ∧
      (∀ i, start ≤ i → i < start + n →
        t2 (l2Base + i) = pagePhys (i * GSP_PAGE_SIZE) % 2 ^ 64 ||| 1) ∧
      (∀ j, j < l2Base + start ∨ l2Base + start + n ≤ j → t2 j = t j) := by
  induction n with
  | zero =>
    intro t start _
    exact ⟨t, rfl, fun i h1 h2 => by omega, fun j _ => rfl⟩
  | succ n ih =>
    intro t start h
    have hnz : pagePhys (start * GSP_PAGE_SIZE) ≠ 0 :=
      h start le_rfl (by omega)
    obtain ⟨t2, heq, hin, hout⟩ := ih
      (Function.update t (l2Base + start)
        (pagePhys (start * GSP_PAGE_SIZE) % 2 ^ 64 ||| 1))
      (start + 1) (fun i h1 h2 => h i (by omega) (by omega))
    refine ⟨t2, ?_, ?_, ?_⟩
    · simp only [fillL2, if_neg hnz]
      exact heq
    · intro i h1 h2
      by_cases hi : i = start
      · subst hi
        rw [hout (l2Base + i) (Or.inl (by omega))]
        rw [Function.update_same]
      · exact hin i (by omega) (by omega)
    · intro j hj
      rw [hout j (by omega)]
      rw [Function.update_noteq (by omega)]

set_option maxHeartbeats 2000000

/-- C3.  `buildRadix3PageTable` computes `numPages = ⌈size/4096⌉`,
`numL2 = ⌈numPages/512⌉`, `numL1 = ⌈numL2/512⌉`, allocates exactly
`(1 + numL1 + numL2)` zeroed 4 KiB table pages laid out
`[root][L1 pages][L2 pages]`, fills `root[i] = (l1PhysBase + i·4096) | 1`
for `i < numL1`, `L1[i] = (l2PhysBase + i·4096) | 1` for `i < numL2`, and
each leaf `L2[i] = pagePhys(i·4096) | 1` where `pagePhys` is queried per
page from the firmware memory descriptor. -/
theorem buildRadix3PageTable_correct (size numPages numL2 numL1 : Nat)
    (pagePhys : Nat → Nat) (radix3Phys : Nat)
    (hnp : numPages = (size + GSP_PAGE_SIZE - 1) / GSP_PAGE_SIZE)
    (hn2 : numL2 = (numPages + 511) / 512)
    (hn1 : numL1 = (numL2 + 511) / 512)
    (hsize : size ≤ 2 ^ 32)
    (hphys : ∀ i, i < numPages → pagePhys (i * GSP_PAGE_SIZE) ≠ 0 ∧
      pagePhys (i * GSP_PAGE_SIZE) < 2 ^ 64)
    (hbase : radix3Phys + (1 + numL1 + numL2) * GSP_PAGE_SIZE < 2 ^ 64) :
    (buildRadix3PageTable size pagePhys radix3Phys).ok = true ∧
    (buildRadix3PageTable size pagePhys radix3Phys).tableSize =
      (1 + numL1 + numL2) * GSP_PAGE_SIZE ∧
    (∀ i, i < numL1 →
      (buildRadix3PageTable size pagePhys radix3Phys).table i =
        (radix3Phys + GSP_PAGE_SIZE + i * GSP_PAGE_SIZE) ||| 1) ∧
    (∀ i, i < numL2 →
      (buildRadix3PageTable size pagePhys radix3Phys).table (512 + i) =
        (radix3Phys + (1 + numL1) * GSP_PAGE_SIZE + i * GSP_PAGE_SIZE) ||| 1) ∧
    (∀ i, i < numPages →
      (buildRadix3PageTable size pagePhys radix3Phys).table
        (512 + numL1 * 512 + i) = pagePhys (i * GSP_PAGE_SIZE) ||| 1) := by
  have hPS : GSP_PAGE_SIZE = 4096 := rfl
  -- size bounds propagate through the ceiling divisions
  have hP20 : numPages ≤ 2 ^ 20 := by
    rw [hnp, hPS]
    calc (size + 4096 - 1) / 4096 ≤ (2 ^ 32 + 4095) / 4096 :=
          Nat.div_le_div_right (by omega)
      _ = 2 ^ 20 := by norm_num
  have h2b : numL2 ≤ 2048 := by
    rw [hn2]
    calc (numPages + 511) / 512 ≤ (2 ^ 20 + 511) / 512 :=
          Nat.div_le_div_right (by omega)
      _ = 2048 := by norm_num
  have h1b : numL1 ≤ 512 := by
    rw [hn1]
    calc (numL2 + 511) / 512 ≤ (2048 + 511) / 512 :=
          Nat.div_le_div_right (by omega)
      _ = 4 := by norm_num
      _ ≤ 512 := by norm_num
  have hle21 : numL2 ≤ numL1 * 512 := by
    have h := le_roundUp 9 numL2
    norm_num at h
    omega
  have hle2p : numPages ≤ numL2 * 512 := by
    have h := le_roundUp 9 numPages
    norm_num at h
    omega
  have hexp : (1 + numL1 + numL2) * GSP_PAGE_SIZE =
      4096 + numL1 * 4096 + numL2 * 4096 := by
    rw [hPS]
    ring
  have hb4 : radix3Phys + 4096 + numL1 * 4096 + numL2 * 4096 < 2 ^ 64 := by
    rw [hexp] at hbase
    omega
  have hl1p : radix3L1Phys radix3Phys = radix3Phys + GSP_PAGE_SIZE := by
    simp only [radix3L1Phys, GSP_PAGE_SIZE]
    exact Nat.mod_eq_of_lt (by omega)
  have hl2p : radix3L2Phys radix3Phys numL1 =
      radix3Phys + GSP_PAGE_SIZE + numL1 * GSP_PAGE_SIZE := by
    simp only [radix3L2Phys, GSP_PAGE_SIZE]
    rw [show radix3L1Phys radix3Phys = radix3Phys + 4096 from hl1p]
    exact Nat.mod_eq_of_lt (by omega)
  -- the leaf fill succeeds on the already-filled root/L1 table
  obtain ⟨t3, heq, hin, hout⟩ := fillL2_spec pagePhys (512 + numL1 * 512)
    numPages (radix3Tables radix3Phys numL1 numL2) 0
    (fun i _ h2 => (hphys i (by omega)).1)
  simp only [buildRadix3PageTable]
  rw [← hnp, ← hn2, ← hn1, heq]
  refine ⟨rfl, rfl, ?_, ?_, ?_⟩
  · -- root entries
    intro i hi
    show t3 i = (radix3Phys + GSP_PAGE_SIZE + i * GSP_PAGE_SIZE) ||| 1
    rw [hout i (Or.inl (by omega))]
    unfold radix3Tables
    rw [fillN_of_notin _ 512 _ numL2 i (Or.inl (by omega))]
    have hv := fillN_of_lt (fun _ => 0) 0
      (fun i => (radix3L1Phys radix3Phys + i * GSP_PAGE_SIZE) % 2 ^ 64 ||| 1)
      numL1 i hi
    rw [Nat.zero_add] at hv
    have himul : i * GSP_PAGE_SIZE < numL1 * GSP_PAGE_SIZE :=
      mul_lt_mul_of_pos_right hi (by simp [GSP_PAGE_SIZE])
    have hmod : (radix3Phys + GSP_PAGE_SIZE + i * GSP_PAGE_SIZE) % 2 ^ 64 =
        radix3Phys + GSP_PAGE_SIZE + i * GSP_PAGE_SIZE := by
      simp only [GSP_PAGE_SIZE] at himul ⊢
      exact Nat.mod_eq_of_lt (by omega)
    rw [hv, hl1p]
    simp only [hmod]
  · -- L1 entries
    intro i hi
    show t3 (512 + i) =
      (radix3Phys + (1 + numL1) * GSP_PAGE_SIZE + i * GSP_PAGE_SIZE) ||| 1
    rw [hout (512 + i) (Or.inl (by omega))]
    unfold radix3Tables
    rw [fillN_of_lt _ 512 _ numL2 i hi]
    have himul : i * GSP_PAGE_SIZE < numL2 * GSP_PAGE_SIZE :=
      mul_lt_mul_of_pos_right hi (by simp [GSP_PAGE_SIZE])
    have hone : radix3Phys + (1 + numL1) * GSP_PAGE_SIZE =
        radix3Phys + GSP_PAGE_SIZE + numL1 * GSP_PAGE_SIZE := by
      ring
    have hmod : (radix3Phys + GSP_PAGE_SIZE + numL1 * GSP_PAGE_SIZE +
        i * GSP_PAGE_SIZE) % 2 ^ 64 =
        radix3Phys + GSP_PAGE_SIZE + numL1 * GSP_PAGE_SIZE + i * GSP_PAGE_SIZE := by
      simp only [GSP_PAGE_SIZE] at himul ⊢
      exact Nat.mod_eq_of_lt (by omega)
    rw [hone, hl2p]
    simp only [hmod]
  · -- leaf entries
    intro i hi
    show t3 (512 + numL1 * 512 + i) = pagePhys (i * GSP_PAGE_SIZE) ||| 1
    have hv := hin i (Nat.zero_le i) (by omega)
    have hmod : pagePhys (i * GSP_PAGE_SIZE) % 2 ^ 64 =
        pagePhys (i * GSP_PAGE_SIZE) := Nat.mod_eq_of_lt (hphys i hi).2
    rw [hv]
    simp only [hmod]

/-- C3 witness: a 600-page firmware image (numL2 = 2, numL1 = 1). -/
theorem buildRadix3PageTable_correct_witness :
    600 * 4096 ≤ 2 ^ 32 ∧
    (∀ i, i < 600 → (0x80000000 + i * 4096 : Nat) ≠ 0 ∧
      (0x80000000 + i * 4096 : Nat) < 2 ^ 64) ∧
    (0x2000 + (1 + 1 + 2) * GSP_PAGE_SIZE : Nat) < 2 ^ 64 ∧
    ((buildRadix3PageTable (600 * 4096) (fun k => 0x80000000 + k) 0x2000).ok =
        true ∧
      (buildRadix3PageTable (600 * 4096) (fun k => 0x80000000 + k)
          0x2000).tableSize = (1 + 1 + 2) * GSP_PAGE_SIZE ∧
      (∀ i, i < 1 →
        (buildRadix3PageTable (600 * 4096) (fun k => 0x80000000 + k)
            0x2000).table i =
          (0x2000 + GSP_PAGE_SIZE + i * GSP_PAGE_SIZE) ||| 1) ∧
      (∀ i, i < 2 →
        (buildRadix3PageTable (600 * 4096) (fun k => 0x80000000 + k)
            0x2000).table (512 + i) =
          (0x2000 + (1 + 1) * GSP_PAGE_SIZE + i * GSP_PAGE_SIZE) ||| 1) ∧
      (∀ i, i < 600 →
        (buildRadix3PageTable (600 * 4096) (fun k => 0x80000000 + k)
            0x2000).table (512 + 1 * 512 + i) =
          (0x80000000 + i * 4096) ||| 1)) :=
  ⟨by decide, fun i hi => ⟨by omega, by omega⟩, by decide,
    buildRadix3PageTable_correct (600 * 4096) 600 2 1
      (fun k => 0x80000000 + k) 0x2000 (by decide) (by decide) (by decide)
      (by decide)
      (fun i hi => ⟨by simp only [GSP_PAGE_SIZE]; omega,
        by simp only [GSP_PAGE_SIZE]; omega⟩)
      (by decide)⟩

/-! ## VBIOS parser claims (C6, C7) -/

/-- A 320-byte VBIOS image: BIT header at 0x10 with one token 0x50
pointing (via 0x30) at a valid Ada PMU lookup table at 0x40, whose sole
entry (`appId = 0x85`) points at a ucode descriptor at 0x60 whose
IMEM/DMEM offsets and sizes reach far outside the buffer. -/
def vbiosOutOfRangeDesc : Nat → Nat := fun i =>
  if i = 0x10 then 0xFF else if i = 0x11 then 0xB8 else
  if i = 0x12 then 0x42 else if i = 0x13 then 0x49 else
  if i = 0x14 then 0x54 else
  if i = 0x18 then 12 else if i = 0x19 then 6 else if i = 0x1A then 1 else
  if i = 0x1C then 0x50 else if i = 0x1E then 4 else
  if i = 0x20 then 0x30 else
  if i = 0x30 then 0x40 else
  if i = 0x40 then 1 else if i = 0x41 then 6 else if i = 0x42 then 6 else
  if i = 0x43 then 1 else
  if i = 0x46 then 0x85 else
  if i = 0x48 then 0x60 else
  if i = 0x61 then 0x10 else
  if i = 0x65 then 0x20 else
  if i = 0x6D then 0x50 else
  if i = 0x71 then 0x10 else 0

/-- C6 counterexample.  On a concrete 320-byte VBIOS, `parseVbios` sets
`fwsecInfo.valid = true` while the recorded IMEM range
(`imemOffset = 0x1060`, `imemSize = 0x2000`) extends far beyond the
buffer: the parser never checks `imemOffset + imemSize ≤ vbiosSize`
(that check only happens later in `executeFwsecFrts`). -/
theorem parseVbios_oob_imem_cex :
    (parseVbios vbiosOutOfRangeDesc 0x140).info.valid = true ∧
    (parseVbios vbiosOutOfRangeDesc 0x140).info.imemOffset = 0x1060 ∧
    (parseVbios vbiosOutOfRangeDesc 0x140).info.imemSize = 0x2000 ∧
    (parseVbios vbiosOutOfRangeDesc 0x140).info.imemOffset +
      (parseVbios vbiosOutOfRangeDesc 0x140).info.imemSize > 0x140 ∧
    (parseVbios vbiosOutOfRangeDesc 0x140).info.dmemOffset +
      (parseVbios vbiosOutOfRangeDesc 0x140).info.dmemSize > 0x140 := by
  decide

/-- The PMU-entry walk only ever reports a valid extraction after its
bound check on the resolved ucode offset, so the recorded `fwOffset`
keeps the whole (modelled 36-byte) descriptor inside the buffer. -/
theorem pmuEntryLoop_fwOffset_bound (d : Nat → Nat) (size fwsecStart : Nat)
    (isAda : Bool) (entrySize : Nat) : ∀ count eo,
    (pmuEntryLoop d size fwsecStart isAda entrySize eo count).valid = true →
    (pmuEntryLoop d size fwsecStart isAda entrySize eo count).fwOffset +
      FALCON_UCODE_DESC_V3_SIZE ≤ size := by
  intro count
  induction count with
  | zero =>
    intro eo h
    simp [pmuEntryLoop] at h
  | succ n ih =>
    intro eo
    simp only [pmuEntryLoop]
    split_ifs with h1 h2 h3 h4 <;>
      first
      | exact ih _
      | (intro _; simp_all)

/-- After resolution, a valid extraction still keeps the descriptor
pointer in bounds, whichever table (resolved or brute-scanned) fed the
entry walk. -/
theorem parseAfterResolve_fwOffset_bound (d : Nat → Nat)
    (size fwsecStart : Nat) (res : PmuResolution)
    (h : (parseAfterResolve d size fwsecStart res).info.valid = true) :
    (parseAfterResolve d size fwsecStart res).info.fwOffset +
      FALCON_UCODE_DESC_V3_SIZE ≤ size := by
  cases res with
  | earlyFalse => simp [parseAfterResolve] at h
  | noTable => simp [parseAfterResolve] at h
  | table off =>
    simp only [parseAfterResolve] at h ⊢
    split_ifs at h ⊢ with hs
    · exact pmuEntryLoop_fwOffset_bound d size fwsecStart _ _ _ _ h
    · exact pmuEntryLoop_fwOffset_bound d size fwsecStart _ _ _ _ h

/-- C6 (amended).  Whenever `parseVbios` sets `fwsecInfo.valid = true`,
what it guarantees is `fwOffset + sizeof(FalconUcodeDescV3) ≤ vbiosSize`:
the descriptor it decodes lies inside the buffer.  The recorded
IMEM/DMEM ranges (`imemOffset + imemSize`, `dmemOffset + dmemSize`) are
not checked by the parser and may exceed the buffer; they are validated
only later, by `executeFwsecFrts` before its PIO load. -/
theorem parseVbios_valid_fwOffset_bound (d : Nat → Nat) (size : Nat)
    (h : (parseVbios d size).info.valid = true) :
    (parseVbios d size).info.fwOffset + FALCON_UCODE_DESC_V3_SIZE ≤ size := by
  simp only [parseVbios] at h ⊢
  split at h
  · simp at h
  · exact parseAfterResolve_fwOffset_bound d size _ _ h

/-- C6 witness: the amended bound evaluated on the concrete VBIOS of the
counterexample, whose extraction is valid with `fwOffset = 0x60`. -/
theorem parseVbios_valid_fwOffset_bound_witness :
    (parseVbios vbiosOutOfRangeDesc 0x140).info.valid = true ∧
    (parseVbios vbiosOutOfRangeDesc 0x140).info.fwOffset +
      FALCON_UCODE_DESC_V3_SIZE ≤ 0x140 :=
  ⟨by decide, parseVbios_valid_fwOffset_bound vbiosOutOfRangeDesc 0x140
    (by decide)⟩

/-- A 0x9200-byte VBIOS image: BIT header at 0x10 with one token 0x50
whose only candidate offset is 0 (so no candidate passes), no token 0x70,
and a perfectly scannable PMU table (signature `01 06 06 01`, entry
`appId = 0x85`) sitting at offset 0x9000. -/
def vbiosNoTokenTable : Nat → Nat := fun i =>
  if i = 0x10 then 0xFF else if i = 0x11 then 0xB8 else
  if i = 0x12 then 0x42 else if i = 0x13 then 0x49 else
  if i = 0x14 then 0x54 else
  if i = 0x18 then 12 else if i = 0x19 then 6 else if i = 0x1A then 1 else
  if i = 0x1C then 0x50 else if i = 0x1E then 4 else
  if i = 0x20 then 0x30 else
  if i = 0x9000 then 1 else if i = 0x9001 then 6 else if i = 0x9002 then 6 else
  if i = 0x9003 then 1 else
  if i = 0x9006 then 0x85 else 0

/-- C7 counterexample.  On a concrete VBIOS where no token-0x50 candidate
passes the signature check and the token-0x70 path yields nothing, the
parser returns "no FWSEC" without ever entering the brute-force 0x9000
scan — even though that scan, run on the same buffer, would find a valid
PMU table with an `appId = 0x85` entry at 0x9000. -/
theorem parseVbios_no_fallback_scan_cex :
    vbiosResolution vbiosNoTokenTable 0x9200 = some PmuResolution.noTable ∧
    (parseVbios vbiosNoTokenTable 0x9200).didBruteScan = false ∧
    (parseVbios vbiosNoTokenTable 0x9200).info.valid = false ∧
    (parseVbios vbiosNoTokenTable 0x9200).ret = true ∧
    bruteScanPmu vbiosNoTokenTable 0x9200 = some 0x9000 := by
  decide

/-- C7 (amended).  The brute-force byte-aligned scan from 0x9000 runs
exactly when the BIT-token paths yield an in-bounds PMU table header that
then fails the plausibility check (`entryCount = 0`, `version > 10`,
`entrySize < 4` or `entrySize > 200`); when neither the Token-0x50
candidates nor the Token-0x70 path yields a table, `parseVbios` returns
"no FWSEC" without scanning. -/
theorem parseVbios_bruteScan_iff (d : Nat → Nat) (size : Nat) :
    ((parseVbios d size).didBruteScan = true ↔
      ∃ off, vbiosResolution d size = some (PmuResolution.table off) ∧
        pmuHeaderRejected d off) ∧
    (vbiosResolution d size = some PmuResolution.noTable →
      parseVbios d size =
        { ret := true, info := {}, didBruteScan := false }) := by
  constructor
  · cases hres : vbiosResolution d size with
    | none =>
      simp only [parseVbios, hres]
      constructor
      · intro h
        simp at h
      · rintro ⟨off, hoff, -⟩
        simp at hoff
    | some res =>
      simp only [parseVbios, hres]
      cases res with
      | earlyFalse =>
        constructor
        · intro h
          simp [parseAfterResolve] at h
        · rintro ⟨off, hoff, -⟩
          simp at hoff
      | noTable =>
        constructor
        · intro h
          simp [parseAfterResolve] at h
        · rintro ⟨off, hoff, -⟩
          simp at hoff
      | table off =>
        simp only [parseAfterResolve]
        split_ifs with hs
        · exact ⟨fun _ => ⟨off, rfl, hs⟩, fun _ => rfl⟩
        · constructor
          · intro h
            simp at h
          · rintro ⟨off2, hoff2, hs2⟩
            have : off2 = off := by
              have h2 := hoff2
              simp at h2
              omega
            subst this
            exact absurd hs2 hs
  · intro hres
    simp only [parseVbios, hres, parseAfterResolve]

/-- C7 witness for the amended characterisation: on the counterexample
buffer the resolution is `noTable`, so no scan happens. -/
theorem parseVbios_bruteScan_iff_witness :
    vbiosResolution vbiosNoTokenTable 0x9200 = some PmuResolution.noTable ∧
    parseVbios vbiosNoTokenTable 0x9200 =
      { ret := true, info := {}, didBruteScan := false } :=
  ⟨by decide,
    (parseVbios_bruteScan_iff vbiosNoTokenTable 0x9200).2 (by decide)⟩

/-- C1.  If the WPR2 enabled bit of `WPR2_ADDR_HI` is already set when
`executeFwsecFrts` is called, the function returns true immediately: none
of the three strategies runs (the theorem holds for every possible
behaviour of `executeFwsecViaBrom`, `loadFalconUcodeDma` and
`loadFalconUcode`), no Falcon reset, ucode load or start is performed,
and the GPU access trace is exactly five register reads — never a
write. -/
theorem executeFwsecFrts_wpr2_early_return (oracle : Nat → Nat → Nat)
    (brom dmaLoad : Trace → Bool × Trace)
    (pioLoad : (Nat → Nat) → Trace → Bool × Trace)
    (fwsecMem : Option ((Nat → Nat) × Nat)) (fwsecPhys : Nat)
    (info0 : FwsecInfo)
    (h : ∀ t, NV_PFB_WPR2_ENABLED (oracle t NV_PFB_PRI_MMU_WPR2_ADDR_HI) =
      true) :
    (executeFwsecFrts oracle brom dmaLoad pioLoad fwsecMem fwsecPhys info0).ok =
      true ∧
    (executeFwsecFrts oracle brom dmaLoad pioLoad fwsecMem fwsecPhys
        info0).events =
      [GpuEvent.read NV_PFB_PRI_MMU_WPR2_ADDR_HI
          (oracle 0 NV_PFB_PRI_MMU_WPR2_ADDR_HI),
        GpuEvent.read NV_PFB_PRI_MMU_WPR2_ADDR_LO
          (oracle 1 NV_PFB_PRI_MMU_WPR2_ADDR_LO),
        GpuEvent.read NV_PFB_PRI_MMU_WPR2_ADDR_HI
          (oracle 2 NV_PFB_PRI_MMU_WPR2_ADDR_HI),
        GpuEvent.read NV_PFB_PRI_MMU_WPR2_ADDR_LO
          (oracle 3 NV_PFB_PRI_MMU_WPR2_ADDR_LO),
        GpuEvent.read NV_PFB_PRI_MMU_WPR2_ADDR_LO_VAL
          (oracle 4 NV_PFB_PRI_MMU_WPR2_ADDR_LO_VAL)] ∧
    (∀ e ∈ (executeFwsecFrts oracle brom dmaLoad pioLoad fwsecMem fwsecPhys
        info0).events, e.isRead = true) := by
  have hstep : executeFwsecFrts oracle brom dmaLoad pioLoad fwsecMem fwsecPhys
      info0 =
      { ok := true
        events :=
          [GpuEvent.read NV_PFB_PRI_MMU_WPR2_ADDR_HI
              (oracle 0 NV_PFB_PRI_MMU_WPR2_ADDR_HI),
            GpuEvent.read NV_PFB_PRI_MMU_WPR2_ADDR_LO
              (oracle 1 NV_PFB_PRI_MMU_WPR2_ADDR_LO),
            GpuEvent.read NV_PFB_PRI_MMU_WPR2_ADDR_HI
              (oracle 2 NV_PFB_PRI_MMU_WPR2_ADDR_HI),
            GpuEvent.read NV_PFB_PRI_MMU_WPR2_ADDR_LO
              (oracle 3 NV_PFB_PRI_MMU_WPR2_ADDR_LO),
            GpuEvent.read NV_PFB_PRI_MMU_WPR2_ADDR_LO_VAL
              (oracle 4 NV_PFB_PRI_MMU_WPR2_ADDR_LO_VAL)]
        wpr2 := some
          (((oracle 4 NV_PFB_PRI_MMU_WPR2_ADDR_LO_VAL) &&& 0xFFFFF) <<< 12,
            (((oracle 2 NV_PFB_PRI_MMU_WPR2_ADDR_HI) &&& 0xFFFFF) <<< 32) |||
              ((oracle 3 NV_PFB_PRI_MMU_WPR2_ADDR_LO) &&& 0xFFF00000))
        info := info0 } := by
    simp [executeFwsecFrts, checkWpr2Setup, readReg, h 2]
  rw [hstep]
  refine ⟨rfl, rfl, ?_⟩
  intro e he
  simp only [List.mem_cons, List.not_mem_nil, or_false] at he
  rcases he with rfl | rfl | rfl | rfl | rfl <;> rfl

/-- C1 witness: a concrete oracle with `WPR2_ADDR_HI = 0x80000001`
(enabled bit set) and arbitrary concrete strategy behaviours. -/
theorem executeFwsecFrts_wpr2_early_return_witness :
    (∀ t, NV_PFB_WPR2_ENABLED
      ((fun _ a => if a = NV_PFB_PRI_MMU_WPR2_ADDR_HI then 0x80000001 else 0 :
        Nat → Nat → Nat) t NV_PFB_PRI_MMU_WPR2_ADDR_HI) = true) ∧
    ((executeFwsecFrts
        (fun _ a => if a = NV_PFB_PRI_MMU_WPR2_ADDR_HI then 0x80000001 else 0)
        (fun tr => (false, tr)) (fun tr => (false, tr))
        (fun _ tr => (false, tr)) none 0 {}).ok = true ∧
      (executeFwsecFrts
        (fun _ a => if a = NV_PFB_PRI_MMU_WPR2_ADDR_HI then 0x80000001 else 0)
        (fun tr => (false, tr)) (fun tr => (false, tr))
        (fun _ tr => (false, tr)) none 0 {}).events =
      [GpuEvent.read NV_PFB_PRI_MMU_WPR2_ADDR_HI 0x80000001,
        GpuEvent.read NV_PFB_PRI_MMU_WPR2_ADDR_LO 0,
        GpuEvent.read NV_PFB_PRI_MMU_WPR2_ADDR_HI 0x80000001,
        GpuEvent.read NV_PFB_PRI_MMU_WPR2_ADDR_LO 0,
        GpuEvent.read NV_PFB_PRI_MMU_WPR2_ADDR_LO_VAL 0] ∧
      (∀ e ∈ (executeFwsecFrts
        (fun _ a => if a = NV_PFB_PRI_MMU_WPR2_ADDR_HI then 0x80000001 else 0)
        (fun tr => (false, tr)) (fun tr => (false, tr))
        (fun _ tr => (false, tr)) none 0 {}).events, e.isRead = true)) := by
  have h : ∀ t, NV_PFB_WPR2_ENABLED
      ((fun _ a => if a = NV_PFB_PRI_MMU_WPR2_ADDR_HI then 0x80000001 else 0 :
        Nat → Nat → Nat) t NV_PFB_PRI_MMU_WPR2_ADDR_HI) = true := by
    have hbit : NV_PFB_WPR2_ENABLED 0x80000001 = true := by decide
    intro t
    exact hbit
  refine ⟨h, ?_⟩
  have := executeFwsecFrts_wpr2_early_return
    (fun _ a => if a = NV_PFB_PRI_MMU_WPR2_ADDR_HI then 0x80000001 else 0)
    (fun tr => (false, tr)) (fun tr => (false, tr))
    (fun _ tr => (false, tr)) none 0 {} h
  simpa using this

end NVDAAL
